import Mathlib

/-!
Verification development for the OSML data-intake STAC item construction and
offline validation engine.  The Python modules `stac_utils.py`,
`geojson_processor.py` and `stac_validator.py` are shallowly embedded below:
parsed JSON documents become values of an inductive `Json` type, dictionary
reads become association lookups in insertion order, raised exceptions become
`Option`/`Except` failures, and the one in-place mutation of a caller
document is modelled by returning the post-state document explicitly.  JSON
numbers are modelled as exact integers: comparison, min and max on IEEE
floats coincide with the order on the represented rationals, so the
ordering-based claims are unaffected, while float formatting is out of
scope.  Unbounded Python recursion over documents is modelled with an
explicit fuel argument; the document size `jsize` always suffices and is
passed at every call site.
-/

/-! ## The JSON data model

`Json`, `JsonA` (array spine) and `JsonO` (object spine) form a mutual
inductive family; the spines are isomorphic to ordinary lists via
`JsonA.toList`/`JsonA.ofList` and `JsonO.toPairs`/`JsonO.ofPairs`.  Objects
keep insertion order, mirroring Python dict semantics. -/

mutual
inductive Json where
  | null : Json
  | bool : Bool → Json
  | num : Int → Json
  | str : String → Json
  | arr : JsonA → Json
  | obj : JsonO → Json
deriving Repr
inductive JsonA where
  | nil : JsonA
  | cons : Json → JsonA → JsonA
deriving Repr
inductive JsonO where
  | nil : JsonO
  | cons : String → Json → JsonO → JsonO
deriving Repr
end

def JsonA.toList : JsonA → List Json
  | .nil => []
  | .cons x xs => x :: xs.toList

def JsonA.ofList : List Json → JsonA
  | [] => .nil
  | x :: xs => .cons x (JsonA.ofList xs)

def JsonO.toPairs : JsonO → List (String × Json)
  | .nil => []
  | .cons k v kvs => (k, v) :: kvs.toPairs

def JsonO.ofPairs : List (String × Json) → JsonO
  | [] => .nil
  | (k, v) :: kvs => .cons k v (JsonO.ofPairs kvs)

/-- Build a JSON array from an ordinary list. -/
def Json.arrOf (xs : List Json) : Json := .arr (JsonA.ofList xs)

/-- Build a JSON object from an ordinary association list. -/
def Json.objOf (kvs : List (String × Json)) : Json := .obj (JsonO.ofPairs kvs)

theorem JsonA.toList_ofList (xs : List Json) : (JsonA.ofList xs).toList = xs := by
  induction xs with
  | nil => rfl
  | cons x xs ih => simp [JsonA.ofList, JsonA.toList, ih]

theorem JsonO.toPairs_ofPairs (kvs : List (String × Json)) :
    (JsonO.ofPairs kvs).toPairs = kvs := by
  induction kvs with
  | nil => rfl
  | cons kv kvs ih => simp [JsonO.ofPairs, JsonO.toPairs, ih]

/-! Size of a document, used as recursion fuel. -/

mutual
def jsize : Json → Nat
  | .null => 1
  | .bool _ => 1
  | .num _ => 1
  | .str _ => 1
  | .arr xs => 1 + jsizeA xs
  | .obj kvs => 1 + jsizeO kvs
def jsizeA : JsonA → Nat
  | .nil => 1
  | .cons x xs => 1 + jsize x + jsizeA xs
def jsizeO : JsonO → Nat
  | .nil => 1
  | .cons _ v kvs => 1 + jsize v + jsizeO kvs
end

/-! Decidable equality for `Json`, via a boolean comparison. -/

mutual
def jbeq : Json → Json → Bool
  | .null, .null => true
  | .bool a, .bool b => a == b
  | .num a, .num b => a == b
  | .str a, .str b => a == b
  | .arr xs, .arr ys => jbeqA xs ys
  | .obj xs, .obj ys => jbeqO xs ys
  | _, _ => false
def jbeqA : JsonA → JsonA → Bool
  | .nil, .nil => true
  | .cons x xs, .cons y ys => jbeq x y && jbeqA xs ys
  | _, _ => false
def jbeqO : JsonO → JsonO → Bool
  | .nil, .nil => true
  | .cons k v xs, .cons k2 v2 ys => k == k2 && jbeq v v2 && jbeqO xs ys
  | _, _ => false
end

mutual
theorem jbeq_refl : ∀ a : Json, jbeq a a = true
  | .null => by simp [jbeq]
  | .bool a => by simp [jbeq]
  | .num a => by simp [jbeq]
  | .str a => by simp [jbeq]
  | .arr xs => by simp [jbeq, jbeqA_refl xs]
  | .obj xs => by simp [jbeq, jbeqO_refl xs]
theorem jbeqA_refl : ∀ xs : JsonA, jbeqA xs xs = true
  | .nil => by simp [jbeqA]
  | .cons x xs => by simp [jbeqA, jbeq_refl x, jbeqA_refl xs]
theorem jbeqO_refl : ∀ xs : JsonO, jbeqO xs xs = true
  | .nil => by simp [jbeqO]
  | .cons k v xs => by simp [jbeqO, jbeq_refl v, jbeqO_refl xs]
end

mutual
theorem jbeq_eq : ∀ a b : Json, jbeq a b = true → a = b
  | .null, .null => by simp
  | .bool a, .bool b => by simp [jbeq]
  | .num a, .num b => by simp [jbeq]
  | .str a, .str b => by simp [jbeq]
  | .arr xs, .arr ys => by
    intro h
    rw [jbeqA_eq xs ys (by simpa [jbeq] using h)]
  | .obj xs, .obj ys => by
    intro h
    rw [jbeqO_eq xs ys (by simpa [jbeq] using h)]
  | .null, .bool _ => by simp [jbeq]
  | .null, .num _ => by simp [jbeq]
  | .null, .str _ => by simp [jbeq]
  | .null, .arr _ => by simp [jbeq]
  | .null, .obj _ => by simp [jbeq]
  | .bool _, .null => by simp [jbeq]
  | .bool _, .num _ => by simp [jbeq]
  | .bool _, .str _ => by simp [jbeq]
  | .bool _, .arr _ => by simp [jbeq]
  | .bool _, .obj _ => by simp [jbeq]
  | .num _, .null => by simp [jbeq]
  | .num _, .bool _ => by simp [jbeq]
  | .num _, .str _ => by simp [jbeq]
  | .num _, .arr _ => by simp [jbeq]
  | .num _, .obj _ => by simp [jbeq]
  | .str _, .null => by simp [jbeq]
  | .str _, .bool _ => by simp [jbeq]
  | .str _, .num _ => by simp [jbeq]
  | .str _, .arr _ => by simp [jbeq]
  | .str _, .obj _ => by simp [jbeq]
  | .arr _, .null => by simp [jbeq]
  | .arr _, .bool _ => by simp [jbeq]
  | .arr _, .num _ => by simp [jbeq]
  | .arr _, .str _ => by simp [jbeq]
  | .arr _, .obj _ => by simp [jbeq]
  | .obj _, .null => by simp [jbeq]
  | .obj _, .bool _ => by simp [jbeq]
  | .obj _, .num _ => by simp [jbeq]
  | .obj _, .str _ => by simp [jbeq]
  | .obj _, .arr _ => by simp [jbeq]
theorem jbeqA_eq : ∀ xs ys : JsonA, jbeqA xs ys = true → xs = ys
  | .nil, .nil => by simp
  | .cons x xs, .cons y ys => by
    intro h
    simp only [jbeqA, Bool.and_eq_true] at h
    rw [jbeq_eq x y h.1, jbeqA_eq xs ys h.2]
  | .nil, .cons _ _ => by simp [jbeqA]
  | .cons _ _, .nil => by simp [jbeqA]
theorem jbeqO_eq : ∀ xs ys : JsonO, jbeqO xs ys = true → xs = ys
  | .nil, .nil => by simp
  | .cons k v xs, .cons k2 v2 ys => by
    intro h
    simp only [jbeqO, Bool.and_eq_true, beq_iff_eq] at h
    rw [h.1.1, jbeq_eq v v2 h.1.2, jbeqO_eq xs ys h.2]
  | .nil, .cons _ _ _ => by simp [jbeqO]
  | .cons _ _ _, .nil => by simp [jbeqO]
end

instance : DecidableEq Json := fun a b =>
  if h : jbeq a b = true then .isTrue (jbeq_eq a b h)
  else .isFalse (fun he => h (he ▸ jbeq_refl a))

instance : DecidableEq JsonA := fun a b =>
  if h : jbeqA a b = true then .isTrue (jbeqA_eq a b h)
  else .isFalse (fun he => h (he ▸ jbeqA_refl a))

instance : DecidableEq JsonO := fun a b =>
  if h : jbeqO a b = true then .isTrue (jbeqO_eq a b h)
  else .isFalse (fun he => h (he ▸ jbeqO_refl a))

instance [DecidableEq ε] [DecidableEq α] : DecidableEq (Except ε α) := fun x y =>
  match x, y with
  | .ok a, .ok b =>
    if h : a = b then .isTrue (by rw [h]) else .isFalse (fun he => by cases he; exact h rfl)
  | .error a, .error b =>
    if h : a = b then .isTrue (by rw [h]) else .isFalse (fun he => by cases he; exact h rfl)
  | .ok _, .error _ => .isFalse (fun he => by cases he)
  | .error _, .ok _ => .isFalse (fun he => by cases he)

/-! ## Dictionary operations -/

/-- Python `d.get(key)` on a dict: first matching key, or `none`. -/
def jLookup : JsonO → String → Option Json
  | .nil, _ => none
  | .cons k v rest, key => if k = key then some v else jLookup rest key

/-- Python `d[key] = v`: replace the value in place if the key exists,
otherwise append the new entry (dict insertion-order semantics). -/
def objSet : JsonO → String → Json → JsonO
  | .nil, k, v => .cons k v .nil
  | .cons k0 v0 rest, k, v =>
    if k0 = k then .cons k v rest else .cons k0 v0 (objSet rest k v)

/-- Python `d.setdefault(key, v)`: insert (at the end) only when absent. -/
def setdefaultKv (kvs : JsonO) (k : String) (v : Json) : JsonO :=
  match jLookup kvs k with
  | some _ => kvs
  | none => JsonO.ofPairs (kvs.toPairs ++ [(k, v)])

/-- Python truthiness of a JSON value. -/
def jsonTruthy : Json → Bool
  | .null => false
  | .bool b => b
  | .num n => !(n == 0)
  | .str s => !(s == "")
  | .arr .nil => false
  | .arr (.cons _ _) => true
  | .obj .nil => false
  | .obj (.cons _ _ _) => true

/-- Python `x or ` followed by an empty dict literal, for `x` an optional
lookup result: the value when truthy, else a fresh empty object. -/
def pyOrEmptyObj : Option Json → Json
  | some j => if jsonTruthy j then j else .obj .nil
  | none => .obj .nil

/-- View a JSON value as a list (Python iteration over a JSON array);
`none` models the TypeError raised when iterating a non-list. -/
def asArr : Json → Option (List Json)
  | .arr xs => some xs.toList
  | _ => none

/-- `mapM` for `Option`, with explicit equations for easy rewriting. -/
def mapMo (f : α → Option β) : List α → Option (List β)
  | [] => some []
  | x :: xs =>
    match f x, mapMo f xs with
    | some y, some ys => some (y :: ys)
    | _, _ => none

/-- `mapM` for `Except String`, with explicit equations. -/
def mapME (f : α → Except String β) : List α → Except String (List β)
  | [] => .ok []
  | x :: xs =>
    match f x, mapME f xs with
    | .ok y, .ok ys => .ok (y :: ys)
    | .error e, _ => .error e
    | _, .error e => .error e

/-! ## stac_utils.py -/

/-- Fallback bounding box covering the entire world (`WORLD_BOUNDS_BBOX`). -/
def WORLD_BOUNDS_BBOX : List Int := [-180, -90, 180, 90]

/-- Python `coord[0]` used as a number: the longitude of one coordinate
position; `none` models an IndexError or a non-numeric entry. -/
def coordLon (c : Json) : Option Int :=
  match c with
  | .arr (.cons (.num x) _) => some x
  | _ => none

/-- Python `coord[1]` used as a number: the latitude of one position. -/
def coordLat (c : Json) : Option Int :=
  match c with
  | .arr (.cons _ (.cons (.num y) _)) => some y
  | _ => none

/-- `calculate_bbox_from_coords`: `[min(lons), min(lats), max(lons),
max(lats)]` over the coordinate list; `none` models the exceptions raised on
an empty list (`min([])`) or malformed coordinate entries. -/
def calculate_bbox_from_coords (coordinates : List Json) : Option (List Int) :=
  match mapMo coordLon coordinates, mapMo coordLat coordinates with
  | some (l :: ls), some (a :: as') =>
    some [ls.foldl min l, as'.foldl min a, ls.foldl max l, as'.foldl max a]
  | _, _ => none

/-- The inner `_extract_coordinates` of `calculate_bbox_from_geometry`.
`fuel` bounds the recursion depth through GeometryCollections; `jsize g`
always suffices, so the fueled function agrees with the unbounded Python
recursion at every call site below.  `none` models a raised exception
(non-dict geometry, or a non-list where Python iterates). -/
def extract_coordinates : Nat → Json → Option (List Json)
  | 0, _ => none
  | fuel + 1, g =>
    match g with
    | .obj kvs =>
      let coords := (jLookup kvs "coordinates").getD (.arr .nil)
      match jLookup kvs "type" with
      | some (.str t) =>
        if t = "Point" then some [coords]
        else if t = "LineString" ∨ t = "MultiPoint" then asArr coords
        else if t = "Polygon" ∨ t = "MultiLineString" then
          match asArr coords with
          | some rings =>
            match mapMo asArr rings with
            | some ringLists => some ringLists.flatten
            | none => none
          | none => none
        else if t = "MultiPolygon" then
          match asArr coords with
          | some polys =>
            match mapMo asArr polys with
            | some ringss =>
              match mapMo asArr ringss.flatten with
              | some coordss => some coordss.flatten
              | none => none
            | none => none
          | none => none
        else if t = "GeometryCollection" then
          match asArr ((jLookup kvs "geometries").getD (.arr .nil)) with
          | some gs =>
            match mapMo (extract_coordinates fuel) gs with
            | some results => some results.flatten
            | none => none
          | none => none
        else some []
      | _ => some []
    | _ => none

/-- `calculate_bbox_from_geometry`: total; any failure (exception) or empty
coordinate list degrades to the world-bounds fallback. -/
def calculate_bbox_from_geometry (geometry : Json) : List Int :=
  match extract_coordinates (jsize geometry) geometry with
  | none => WORLD_BOUNDS_BBOX
  | some [] => WORLD_BOUNDS_BBOX
  | some coordinates =>
    match calculate_bbox_from_coords coordinates with
    | some bbox => bbox
    | none => WORLD_BOUNDS_BBOX

/-- `geometry_from_bbox`: closed rectangular Polygon from a bbox; `.error`
models the ValueError raised when unpacking a list that is not 4 long. -/
def geometry_from_bbox (bbox : List Int) : Except String Json :=
  match bbox with
  | [min_lon, min_lat, max_lon, max_lat] =>
    .ok (Json.objOf
      [("type", .str "Polygon"),
       ("coordinates", Json.arrOf
         [Json.arrOf
           [Json.arrOf [.num min_lon, .num min_lat],
            Json.arrOf [.num max_lon, .num min_lat],
            Json.arrOf [.num max_lon, .num max_lat],
            Json.arrOf [.num min_lon, .num max_lat],
            Json.arrOf [.num min_lon, .num min_lat]]])])
  | _ => .error "ValueError: not enough values to unpack"

/-- `build_stac_links`: standard self and collection links. -/
def build_stac_links (collection_id item_id : String) : Json :=
  Json.arrOf
    [Json.objOf
      [("href", .str ("/collections/" ++ collection_id ++ "/items/" ++ item_id)),
       ("rel", .str "self")],
     Json.objOf
      [("href", .str ("/collections/" ++ collection_id)),
       ("rel", .str "collection"),
       ("type", .str "application/json")]]

/-- The STAC Item dictionary assembled by `build_stac_item` (the keys of
`item_data`, in construction order). -/
structure StacItem where
  id : String
  collection : String
  type : String
  geometry : Json
  bbox : List Int
  properties : JsonO
  assets : JsonO
  links : Json
  stac_version : String
deriving DecidableEq, Repr

/-- `build_stac_item`: shared STAC Item constructor; when no links are
given, standard self/collection links are generated. -/
def build_stac_item (item_id collection_id : String) (geometry : Json)
    (bbox : List Int) (properties : JsonO) (assets : JsonO)
    (links : Option Json) : StacItem :=
  { id := item_id
    collection := collection_id
    type := "Feature"
    geometry := geometry
    bbox := bbox
    properties := properties
    assets := assets
    links := links.getD (build_stac_links collection_id item_id)
    stac_version := "1.0.0" }

/-! ## The GeoJSON geometry data model (spec side, for claim C1)

A closed tagged union of the seven GeoJSON geometry types, with a recursive
GeometryCollection case.  A coordinate position is a longitude/latitude pair
followed by an arbitrary tail (a `z` value and anything further is ignored
by the code under verification). -/

/-- One coordinate position: `[lon, lat, ...extra]`. -/
structure Pos where
  lon : Int
  lat : Int
  extra : List Json
deriving DecidableEq, Repr

/-- The JSON encoding of a position. -/
def Pos.toJson (p : Pos) : Json := .arr (.cons (.num p.lon) (.cons (.num p.lat) (JsonA.ofList p.extra)))

mutual
inductive Geometry where
  | point : Pos → Geometry
  | lineString : List Pos → Geometry
  | multiPoint : List Pos → Geometry
  | polygon : List (List Pos) → Geometry
  | multiLineString : List (List Pos) → Geometry
  | multiPolygon : List (List (List Pos)) → Geometry
  | collection : GeometryList → Geometry
deriving Repr
inductive GeometryList where
  | nil : GeometryList
  | cons : Geometry → GeometryList → GeometryList
deriving Repr
end

/-- JSON encoding of a ring (list of positions). -/
def ringToJson (r : List Pos) : Json := Json.arrOf (r.map Pos.toJson)

/-- JSON encoding of a polygon (list of rings). -/
def polyToJson (pgon : List (List Pos)) : Json := Json.arrOf (pgon.map ringToJson)

mutual
/-- The GeoJSON document encoding of a geometry value. -/
def Geometry.toJson : Geometry → Json
  | .point p => Json.objOf [("type", .str "Point"), ("coordinates", p.toJson)]
  | .lineString ps =>
    Json.objOf [("type", .str "LineString"), ("coordinates", Json.arrOf (ps.map Pos.toJson))]
  | .multiPoint ps =>
    Json.objOf [("type", .str "MultiPoint"), ("coordinates", Json.arrOf (ps.map Pos.toJson))]
  | .polygon rs =>
    Json.objOf [("type", .str "Polygon"), ("coordinates", Json.arrOf (rs.map ringToJson))]
  | .multiLineString rs =>
    Json.objOf [("type", .str "MultiLineString"), ("coordinates", Json.arrOf (rs.map ringToJson))]
  | .multiPolygon ps =>
    Json.objOf [("type", .str "MultiPolygon"), ("coordinates", Json.arrOf (ps.map polyToJson))]
  | .collection gs =>
    Json.objOf [("type", .str "GeometryCollection"), ("geometries", .arr (GeometryList.toJsonA gs))]
def GeometryList.toJsonA : GeometryList → JsonA
  | .nil => .nil
  | .cons g gs => .cons g.toJson (GeometryList.toJsonA gs)
end

mutual
/-- Spec-side recursive flattening of all coordinate positions reachable
from a geometry, in document order. -/
def Geometry.flatten : Geometry → List Pos
  | .point p => [p]
  | .lineString ps => ps
  | .multiPoint ps => ps
  | .polygon rs => rs.flatten
  | .multiLineString rs => rs.flatten
  | .multiPolygon ps => (ps.map List.flatten).flatten
  | .collection gs => GeometryList.flattenAll gs
def GeometryList.flattenAll : GeometryList → List Pos
  | .nil => []
  | .cons g gs => g.flatten ++ GeometryList.flattenAll gs
end

/-- Spec-side envelope: component-wise min/max over a list of positions,
world bounds when the list is empty. -/
def envelope (ps : List Pos) : List Int :=
  match ps with
  | [] => WORLD_BOUNDS_BBOX
  | p :: rest =>
    [(rest.map Pos.lon).foldl min p.lon, (rest.map Pos.lat).foldl min p.lat,
     (rest.map Pos.lon).foldl max p.lon, (rest.map Pos.lat).foldl max p.lat]

/-! ## Bounding-box correctness machinery (claim C1) -/

theorem jsize_pos : ∀ j : Json, 1 ≤ jsize j
  | .null => le_refl 1
  | .bool _ => le_refl 1
  | .num _ => le_refl 1
  | .str _ => le_refl 1
  | .arr xs => by simp [jsize]
  | .obj kvs => by simp [jsize]

theorem mapMo_map (f : α → Option β) (enc : γ → α) (g : γ → β) :
    ∀ l : List γ, (∀ x ∈ l, f (enc x) = some (g x)) →
      mapMo f (l.map enc) = some (l.map g) := by
  intro l
  induction l with
  | nil => intro _; rfl
  | cons x xs ih =>
    intro h
    simp only [List.map_cons, mapMo, h x (by simp),
      ih (fun y hy => h y (by simp [hy]))]

theorem JsonA.ofList_toList : ∀ xs : JsonA, JsonA.ofList xs.toList = xs
  | .nil => rfl
  | .cons x xs => by simp [JsonA.toList, JsonA.ofList, JsonA.ofList_toList xs]

theorem asArr_arrOf (xs : List Json) : asArr (Json.arrOf xs) = some xs := by
  simp [asArr, Json.arrOf, JsonA.toList_ofList]

theorem mapMo_asArr_arrOf (ls : List (List Json)) :
    mapMo asArr (ls.map Json.arrOf) = some ls := by
  have h := mapMo_map asArr Json.arrOf (fun x => x) ls (fun x _ => asArr_arrOf x)
  simpa using h

/-! Evaluation of `_extract_coordinates` on each concrete geometry shape. -/

theorem extract_point (fuel : Nat) (c : Json) :
    extract_coordinates (fuel + 1)
      (Json.objOf [("type", .str "Point"), ("coordinates", c)]) = some [c] := by
  simp [extract_coordinates, Json.objOf, JsonO.ofPairs, jLookup]

theorem extract_lineString (fuel : Nat) (c : Json) :
    extract_coordinates (fuel + 1)
      (Json.objOf [("type", .str "LineString"), ("coordinates", c)]) = asArr c := by
  simp [extract_coordinates, Json.objOf, JsonO.ofPairs, jLookup]

theorem extract_multiPoint (fuel : Nat) (c : Json) :
    extract_coordinates (fuel + 1)
      (Json.objOf [("type", .str "MultiPoint"), ("coordinates", c)]) = asArr c := by
  simp [extract_coordinates, Json.objOf, JsonO.ofPairs, jLookup]

theorem extract_polygon (fuel : Nat) (rs : List (List Json)) :
    extract_coordinates (fuel + 1)
      (Json.objOf [("type", .str "Polygon"),
        ("coordinates", Json.arrOf (rs.map Json.arrOf))]) = some rs.flatten := by
  simp [extract_coordinates, Json.objOf, JsonO.ofPairs, jLookup, asArr_arrOf,
    mapMo_asArr_arrOf]

theorem extract_multiLineString (fuel : Nat) (rs : List (List Json)) :
    extract_coordinates (fuel + 1)
      (Json.objOf [("type", .str "MultiLineString"),
        ("coordinates", Json.arrOf (rs.map Json.arrOf))]) = some rs.flatten := by
  simp [extract_coordinates, Json.objOf, JsonO.ofPairs, jLookup, asArr_arrOf,
    mapMo_asArr_arrOf]

theorem extract_multiPolygonRaw (fuel : Nat) (c : Json) :
    extract_coordinates (fuel + 1)
      (Json.objOf [("type", .str "MultiPolygon"), ("coordinates", c)]) =
      (match asArr c with
       | some polys =>
         (match mapMo asArr polys with
          | some ringss =>
            (match mapMo asArr ringss.flatten with
             | some coordss => some coordss.flatten
             | none => none)
          | none => none)
       | none => none) := rfl

theorem extract_multiPolygon (fuel : Nat) (ps : List (List (List Json))) :
    extract_coordinates (fuel + 1)
      (Json.objOf [("type", .str "MultiPolygon"),
        ("coordinates", Json.arrOf
          (ps.map (fun poly => Json.arrOf (poly.map Json.arrOf))))]) =
      some ps.flatten.flatten := by
  have h1 : mapMo asArr (ps.map (fun poly => Json.arrOf (poly.map Json.arrOf))) =
      some (ps.map (fun poly => poly.map Json.arrOf)) :=
    mapMo_map asArr _ _ ps (fun poly _ => asArr_arrOf (poly.map Json.arrOf))
  have h2 : (ps.map (fun poly => poly.map Json.arrOf)).flatten =
      ps.flatten.map Json.arrOf := by
    rw [← List.map_flatten]
  rw [extract_multiPolygonRaw, asArr_arrOf]
  simp only [h1, h2, mapMo_asArr_arrOf]

theorem extract_geometryCollection (fuel : Nat) (gs : List Json) :
    extract_coordinates (fuel + 1)
      (Json.objOf [("type", .str "GeometryCollection"),
        ("geometries", Json.arrOf gs)]) =
      match mapMo (extract_coordinates fuel) gs with
      | some results => some results.flatten
      | none => none := by
  simp [extract_coordinates, Json.objOf, JsonO.ofPairs, jLookup, asArr_arrOf,
    asArr, JsonA.toList_ofList, Json.arrOf]

theorem coordLon_toJson (p : Pos) : coordLon p.toJson = some p.lon := rfl

theorem coordLat_toJson (p : Pos) : coordLat p.toJson = some p.lat := rfl

/-- `calculate_bbox_from_coords` on encoded positions is the component-wise
min/max fold. -/
theorem bbox_coords_toJson : ∀ ps : List Pos,
    calculate_bbox_from_coords (ps.map Pos.toJson) =
      match ps with
      | [] => none
      | p :: rest =>
        some [(rest.map Pos.lon).foldl min p.lon, (rest.map Pos.lat).foldl min p.lat,
              (rest.map Pos.lon).foldl max p.lon, (rest.map Pos.lat).foldl max p.lat] := by
  intro ps
  have hlon := mapMo_map coordLon Pos.toJson Pos.lon ps (fun p _ => coordLon_toJson p)
  have hlat := mapMo_map coordLat Pos.toJson Pos.lat ps (fun p _ => coordLat_toJson p)
  cases ps with
  | nil => rfl
  | cons p rest =>
    simp only [List.map_cons] at hlon hlat ⊢
    simp only [calculate_bbox_from_coords, hlon, hlat]

/-- Flattened coordinate lists of an encoded geometry list, element-wise. -/
def GeometryList.flatLists : GeometryList → List (List Json)
  | .nil => []
  | .cons g gs => (g.flatten.map Pos.toJson) :: GeometryList.flatLists gs

theorem flatLists_flatten : ∀ gs : GeometryList,
    (GeometryList.flatLists gs).flatten = (GeometryList.flattenAll gs).map Pos.toJson
  | .nil => rfl
  | .cons g gs => by
    simp [GeometryList.flatLists, GeometryList.flattenAll, flatLists_flatten gs]

theorem ringToJson_eq (rs : List (List Pos)) :
    rs.map ringToJson = (rs.map (fun r => r.map Pos.toJson)).map Json.arrOf := by
  simp only [List.map_map]
  exact List.map_congr_left (fun r _ => rfl)

mutual
/-- With sufficient fuel, `_extract_coordinates` on the encoding of a
geometry value returns exactly its recursively flattened positions. -/
theorem extract_toJson : ∀ (g : Geometry) (fuel : Nat), jsize g.toJson ≤ fuel →
    extract_coordinates fuel g.toJson = some (g.flatten.map Pos.toJson)
  | g, 0 => fun h => absurd h (by have := jsize_pos g.toJson; omega)
  | .point p, fuel + 1 => fun _ => by
    rw [Geometry.toJson, extract_point]
    simp [Geometry.flatten]
  | .lineString ps, fuel + 1 => fun _ => by
    rw [Geometry.toJson, extract_lineString, asArr_arrOf]
    simp [Geometry.flatten]
  | .multiPoint ps, fuel + 1 => fun _ => by
    rw [Geometry.toJson, extract_multiPoint, asArr_arrOf]
    simp [Geometry.flatten]
  | .polygon rs, fuel + 1 => fun _ => by
    rw [Geometry.toJson, ringToJson_eq, extract_polygon]
    simp [Geometry.flatten, List.map_flatten]
  | .multiLineString rs, fuel + 1 => fun _ => by
    rw [Geometry.toJson, ringToJson_eq, extract_multiLineString]
    simp [Geometry.flatten, List.map_flatten]
  | .multiPolygon ps, fuel + 1 => fun _ => by
    have hps : ps.map polyToJson =
        ps.map ((fun poly => Json.arrOf (poly.map Json.arrOf)) ∘
          (fun pgon => pgon.map (fun r => r.map Pos.toJson))) := by
      refine List.map_congr_left (fun pgon _ => ?_)
      simp [Function.comp, polyToJson, ringToJson_eq, List.map_map]
    rw [Geometry.toJson, hps, ← List.map_map, extract_multiPolygon]
    simp only [Geometry.flatten, List.map_flatten, List.map_map, List.flatten_flatten,
      Option.some.injEq]
    refine congrArg List.flatten (List.map_congr_left (fun pgon _ => ?_))
    simp [List.map_flatten]
  | .collection gs, fuel + 1 => fun h => by
    have hsz : jsizeA (GeometryList.toJsonA gs) ≤ fuel := by
      simp only [Geometry.toJson, Json.objOf, JsonO.ofPairs, jsize, jsizeO] at h
      omega
    have harr : Json.arr (GeometryList.toJsonA gs) =
        Json.arrOf (GeometryList.toJsonA gs).toList := by
      simp only [Json.arrOf]
      congr 1
      exact (JsonA.ofList_toList (GeometryList.toJsonA gs)).symm
    rw [Geometry.toJson, harr, extract_geometryCollection,
      extract_toJsonA gs fuel hsz]
    simp [Geometry.flatten, flatLists_flatten]
theorem extract_toJsonA : ∀ (gs : GeometryList) (fuel : Nat),
    jsizeA (GeometryList.toJsonA gs) ≤ fuel →
    mapMo (extract_coordinates fuel) (GeometryList.toJsonA gs).toList =
      some (GeometryList.flatLists gs)
  | .nil, fuel => fun _ => rfl
  | .cons g gs, fuel => fun h => by
    have h1 : jsize g.toJson ≤ fuel := by
      simp only [GeometryList.toJsonA, jsizeA] at h
      omega
    have h2 : jsizeA (GeometryList.toJsonA gs) ≤ fuel := by
      simp only [GeometryList.toJsonA, jsizeA] at h
      have := jsize_pos g.toJson
      omega
    simp only [GeometryList.toJsonA, JsonA.toList, mapMo, extract_toJson g fuel h1,
      extract_toJsonA gs fuel h2, GeometryList.flatLists]
end

/-- Central bbox correctness lemma: on any encoded geometry value the
computed bbox is the envelope of the recursively flattened positions. -/
theorem calculate_bbox_toJson (g : Geometry) :
    calculate_bbox_from_geometry g.toJson = envelope g.flatten := by
  unfold calculate_bbox_from_geometry
  rw [extract_toJson g (jsize g.toJson) (le_refl _)]
  cases hf : g.flatten with
  | nil => simp [envelope]
  | cons p rest =>
    have := bbox_coords_toJson (p :: rest)
    simp only [List.map_cons] at this ⊢
    rw [this]
    simp [envelope]

/-- An unrecognized geometry type extracts no coordinates. -/
theorem extract_unknown_type (fuel : Nat) (t : String) (c : Json)
    (h1 : t ≠ "Point") (h2 : t ≠ "LineString") (h3 : t ≠ "MultiPoint")
    (h4 : t ≠ "Polygon") (h5 : t ≠ "MultiLineString") (h6 : t ≠ "MultiPolygon")
    (h7 : t ≠ "GeometryCollection") :
    extract_coordinates (fuel + 1)
      (Json.objOf [("type", .str t), ("coordinates", c)]) = some [] := by
  simp [extract_coordinates, Json.objOf, JsonO.ofPairs, jLookup, h1, h2, h3, h4,
    h5, h6, h7]

/-! ## Claim C1 -/

/-- C1: `calculate_bbox_from_geometry` is total (modelled as a total
function; every Python exception path is an explicit fallback case) and on
every GeoJSON geometry value returns the component-wise
`[min_lon, min_lat, max_lon, max_lat]` envelope of all coordinate pairs
recursively flattened from the geometry — Point as itself,
LineString/MultiPoint directly, Polygon/MultiLineString one ring level,
MultiPolygon two levels, GeometryCollection by recursing into
sub-geometries at any nesting depth — and whenever no coordinate pair can
be extracted (empty, null, or unrecognized geometry) it returns exactly
`[-180, -90, 180, 90]`. -/
theorem C1_bbox_envelope :
    (∀ g : Geometry, calculate_bbox_from_geometry g.toJson = envelope g.flatten) ∧
    (∀ g : Geometry, g.flatten = [] →
      calculate_bbox_from_geometry g.toJson = WORLD_BOUNDS_BBOX) ∧
    calculate_bbox_from_geometry .null = WORLD_BOUNDS_BBOX ∧
    calculate_bbox_from_geometry (.obj .nil) = WORLD_BOUNDS_BBOX ∧
    (∀ (t : String) (c : Json),
      t ∉ (["Point", "LineString", "MultiPoint", "Polygon", "MultiLineString",
            "MultiPolygon", "GeometryCollection"] : List String) →
      calculate_bbox_from_geometry
        (Json.objOf [("type", .str t), ("coordinates", c)]) = WORLD_BOUNDS_BBOX) := by
  refine ⟨fun g => calculate_bbox_toJson g, fun g hg => ?_, by decide, by decide,
    fun t c ht => ?_⟩
  · rw [calculate_bbox_toJson g, hg]
    rfl
  · simp only [List.mem_cons, List.mem_singleton, not_or] at ht
    obtain ⟨n1, n2, n3, n4, n5, n6, n7, -⟩ := ht
    have hs : jsize (Json.objOf [("type", .str t), ("coordinates", c)]) =
        (4 + jsize c) + 1 := by
      simp [Json.objOf, JsonO.ofPairs, jsize, jsizeO]
      omega
    unfold calculate_bbox_from_geometry
    rw [hs, extract_unknown_type (4 + jsize c) t c n1 n2 n3 n4 n5 n6 n7]

/-- Witness for C1: a (deeply nested) empty GeometryCollection and an
unrecognized geometry type both fall back to world bounds. -/
theorem C1_bbox_envelope_witness :
    calculate_bbox_from_geometry
      (Geometry.toJson (.collection (.cons (.collection (.cons
        (.collection .nil) .nil)) .nil))) = WORLD_BOUNDS_BBOX ∧
    calculate_bbox_from_geometry
      (Json.objOf [("type", .str "Oval"), ("coordinates", .null)]) =
      WORLD_BOUNDS_BBOX :=
  ⟨C1_bbox_envelope.2.1 (.collection (.cons (.collection (.cons
      (.collection .nil) .nil)) .nil)) rfl,
   C1_bbox_envelope.2.2.2.2 "Oval" .null (by decide)⟩

/-! ## Claim C10 -/

/-- C10: for every bbox `[a, b, c, d]` with `a ≤ c` and `b ≤ d`,
`geometry_from_bbox` returns a Polygon with exactly one ring of exactly 5
coordinate pairs whose first and last points are equal, and
`calculate_bbox_from_geometry` applied to that polygon returns the original
bbox. -/
theorem C10_geometry_from_bbox_roundtrip :
    ∀ a b c d : Int, a ≤ c → b ≤ d →
      ∃ ring : List Pos,
        geometry_from_bbox [a, b, c, d] = .ok (Geometry.toJson (.polygon [ring])) ∧
        ring.length = 5 ∧ ring.head? = ring.getLast? ∧
        calculate_bbox_from_geometry (Geometry.toJson (.polygon [ring])) =
          [a, b, c, d] := by
  intro a b c d hac hbd
  refine ⟨[⟨a, b, []⟩, ⟨c, b, []⟩, ⟨c, d, []⟩, ⟨a, d, []⟩, ⟨a, b, []⟩], rfl, rfl,
    rfl, ?_⟩
  rw [calculate_bbox_toJson]
  simp only [Geometry.flatten, List.flatten_cons, List.flatten_nil,
    List.append_nil, envelope, List.map_cons, List.map_nil, List.foldl]
  simp only [List.cons.injEq, and_true]
  omega

/-- Witness for C10 at the concrete bbox `[0, 0, 1, 1]`. -/
theorem C10_geometry_from_bbox_roundtrip_witness :
    ∃ ring : List Pos,
      geometry_from_bbox [0, 0, 1, 1] = .ok (Geometry.toJson (.polygon [ring])) ∧
      ring.length = 5 ∧ ring.head? = ring.getLast? ∧
      calculate_bbox_from_geometry (Geometry.toJson (.polygon [ring])) =
        [0, 0, 1, 1] :=
  C10_geometry_from_bbox_roundtrip 0 0 1 1 (by decide) (by decide)

/-! ## Python string primitives

Python strings are sequences of code points, modelled on `String.data`
(`List Char`).  Lower-casing is ASCII (`A`-`Z`), which agrees with Python for
all ASCII input; the keys and names this code manipulates are ASCII. -/

/-- ASCII lower-casing of one character. -/
def pyLowerChar (c : Char) : Char :=
  if 'A' ≤ c ∧ c ≤ 'Z' then Char.ofNat (c.toNat + 32) else c

/-- Python `s.lower()` (ASCII). -/
def pyLower (s : String) : String := String.mk (s.data.map pyLowerChar)

/-- Python `s.replace(old, new)` for single characters. -/
def replaceChar (old new : Char) (s : String) : String :=
  String.mk (s.data.map (fun c => if c = old then new else c))

/-- Python `s.split(sep)` for a single-character separator (empty string
splits to one empty part, matching Python). -/
def splitChars (sep : Char) : List Char → List (List Char)
  | [] => [[]]
  | c :: cs =>
    let rest := splitChars sep cs
    if c = sep then [] :: rest
    else
      match rest with
      | g :: gs => (c :: g) :: gs
      | [] => [[c]]

/-- Python `s.split(sep)` for a single-character separator. -/
def splitOnChar (sep : Char) (s : String) : List String :=
  (splitChars sep s.data).map String.mk

/-- Python `s.endswith(suffix)`. -/
def endsWithStr (sfx s : String) : Bool := sfx.data.isSuffixOf s.data

/-- Python `s.removesuffix(suffix)`: case-sensitive, removes only on an
exact match. -/
def stripSuffixStr (sfx s : String) : String :=
  if endsWithStr sfx s then String.mk (s.data.take (s.data.length - sfx.data.length))
  else s

/-- Python `sep.join(parts)`. -/
def strIntercalate (sep : String) : List String → String
  | [] => ""
  | s :: rest => rest.foldl (fun acc t => acc ++ sep ++ t) s

/-- Python `s.rsplit(".", 1)[0]`: everything before the last dot (the whole
string when it has no dot). -/
def beforeLastDot (s : String) : String :=
  let parts := splitOnChar '.' s
  if parts.length ≤ 1 then s else strIntercalate "." parts.dropLast

/-! ## geojson_processor.py: collection-id resolution -/

/-- Default collection ID assigned by CDK when none is requested. -/
def DEFAULT_COLLECTION_ID : String := "OSML"

/-- Normalization used on collection names:
`base.lower().replace("_", "-").replace(" ", "-")`. -/
def pyNormalizeName (base : String) : String :=
  replaceChar ' ' '-' (replaceChar '_' '-' (pyLower base))

/-- `extract_collection_from_key`: derive a collection name from the S3 key
directory path. -/
def extract_collection_from_key (s3_key : String) : String :=
  let path_parts := splitOnChar '/' s3_key
  let collection_base :=
    if path_parts.length < 2 then
      let filename := path_parts.getD 0 ""
      if endsWithStr ".geojson" (pyLower filename) then
        stripSuffixStr ".geojson" filename
      else
        beforeLastDot filename
    else
      path_parts.getD (path_parts.length - 2) ""
  let collection_name := pyNormalizeName collection_base
  if collection_name = "" then "user-data" else collection_name

/-- Collection-id resolution inside `GeoJSONProcessor.process`: the key-derived
name is used exactly when the requested id equals the sentinel default. -/
def resolve_collection_id (collection_id : String) (s3_key : String) : String :=
  if collection_id = DEFAULT_COLLECTION_ID then extract_collection_from_key s3_key
  else collection_id

/-- Modelled from the spec (claim C9's words): the filename stem, i.e. the
name with its extension removed. -/
def claimFilenameStem (filename : String) : String := beforeLastDot filename

/-- Modelled from the spec (claim C9's words): collection name derived as
the second-to-last path segment, or the filename stem at the root,
normalized, with a generic fallback when empty. -/
def C9_claimedCollection (key : String) : String :=
  let parts := splitOnChar '/' key
  let base :=
    if parts.length < 2 then claimFilenameStem (parts.getD 0 "")
    else parts.getD (parts.length - 2) ""
  let n := pyNormalizeName base
  if n = "" then "user-data" else n

/-- A normalized name with empty-string fallback is never empty. -/
theorem normalized_or_fallback_ne_empty (s : String) :
    (if pyNormalizeName s = "" then "user-data" else pyNormalizeName s) ≠ "" := by
  split
  · decide
  · assumption

/-! ## Claim C9 -/

/-- C9 counterexample: for the root-level key `A.GEOJSON` the code checks
the `.geojson` extension case-insensitively but strips it case-sensitively,
so the extension survives into the collection name: the code yields
`a.geojson` while the claimed filename-stem rule yields `a`. -/
theorem C9_collection_id_counterexample :
    extract_collection_from_key "A.GEOJSON" = "a.geojson" ∧
    C9_claimedCollection "A.GEOJSON" = "a" ∧
    extract_collection_from_key "A.GEOJSON" ≠ C9_claimedCollection "A.GEOJSON" := by
  decide

/-- C9 (amended): when the caller-supplied collection id equals the sentinel
default `OSML`, the collection name is derived from the source key as the
second-to-last path segment, or from the filename when the key has no
directory component — stripping a final case-sensitive `.geojson` suffix
when the lower-cased filename ends with `.geojson` (an upper/mixed-case
`.GEOJSON` extension is therefore not stripped and survives, lower-cased,
into the name), otherwise removing everything from the last dot on; the
result is lower-cased with underscores and spaces replaced by hyphens, and
the generic name `user-data` is used when normalization yields the empty
string (the result is never empty). -/
theorem C9_collection_id_amended :
    ∀ (cid key : String),
      (cid ≠ DEFAULT_COLLECTION_ID → resolve_collection_id cid key = cid) ∧
      (cid = DEFAULT_COLLECTION_ID →
        resolve_collection_id cid key = extract_collection_from_key key) ∧
      (2 ≤ (splitOnChar '/' key).length →
        extract_collection_from_key key =
          (if pyNormalizeName ((splitOnChar '/' key).getD
              ((splitOnChar '/' key).length - 2) "") = "" then "user-data"
           else pyNormalizeName ((splitOnChar '/' key).getD
              ((splitOnChar '/' key).length - 2) ""))) ∧
      ((splitOnChar '/' key).length < 2 →
        endsWithStr ".geojson" (pyLower ((splitOnChar '/' key).getD 0 "")) = true →
        extract_collection_from_key key =
          (if pyNormalizeName (stripSuffixStr ".geojson"
              ((splitOnChar '/' key).getD 0 "")) = "" then "user-data"
           else pyNormalizeName (stripSuffixStr ".geojson"
              ((splitOnChar '/' key).getD 0 "")))) ∧
      ((splitOnChar '/' key).length < 2 →
        endsWithStr ".geojson" (pyLower ((splitOnChar '/' key).getD 0 "")) = false →
        extract_collection_from_key key =
          (if pyNormalizeName (beforeLastDot ((splitOnChar '/' key).getD 0 "")) = ""
           then "user-data"
           else pyNormalizeName (beforeLastDot ((splitOnChar '/' key).getD 0 "")))) ∧
      extract_collection_from_key key ≠ "" := by
  intro cid key
  refine ⟨fun h => by simp [resolve_collection_id, h],
    fun h => by simp [resolve_collection_id, h], fun h2 => ?_, fun h2 he => ?_,
    fun h2 he => ?_, ?_⟩
  · have hlt : ¬ (splitOnChar '/' key).length < 2 := by omega
    simp only [extract_collection_from_key, hlt, if_false]
  · have hlt : (splitOnChar '/' key).length < 2 := h2
    simp only [extract_collection_from_key, hlt, if_true, he]
  · have hlt : (splitOnChar '/' key).length < 2 := h2
    simp only [extract_collection_from_key, hlt, if_true, he,
      Bool.false_eq_true, if_false]
  · simp only [extract_collection_from_key]
    exact normalized_or_fallback_ne_empty _

/-- Witness for C9 at a directory key and the sentinel collection id. -/
theorem C9_collection_id_amended_witness :
    resolve_collection_id "OSML" "uploads/airports/x.geojson" =
      extract_collection_from_key "uploads/airports/x.geojson" ∧
    extract_collection_from_key "uploads/airports/x.geojson" =
      (if pyNormalizeName ((splitOnChar '/' "uploads/airports/x.geojson").getD
          ((splitOnChar '/' "uploads/airports/x.geojson").length - 2) "") = ""
       then "user-data"
       else pyNormalizeName ((splitOnChar '/' "uploads/airports/x.geojson").getD
          ((splitOnChar '/' "uploads/airports/x.geojson").length - 2) "")) :=
  ⟨(C9_collection_id_amended "OSML" "uploads/airports/x.geojson").2.1 rfl,
   (C9_collection_id_amended "OSML" "uploads/airports/x.geojson").2.2.1 (by decide)⟩

/-! ## geojson_processor.py: whole-document item construction -/

/-- Python `a or b` where `a` is an optional dict lookup: the looked-up
value when truthy, else `b`. -/
def pyOrJ (a : Option Json) (b : Json) : Json :=
  match a with
  | some j => if jsonTruthy j then j else b
  | none => b

/-- Per-feature bbox inside `_calculate_collection_bbox`:
`calculate_bbox_from_geometry(f.get("geometry") or ` an empty dict `)`;
`.error` models the AttributeError raised when a feature is not a dict. -/
def featureGeometryBbox (f : Json) : Except String (List Int) :=
  match f with
  | .obj fkvs => .ok (calculate_bbox_from_geometry (pyOrEmptyObj (jLookup fkvs "geometry")))
  | _ => .error "AttributeError: feature has no attribute get"

/-- The tail of `_calculate_collection_bbox`: filter out world-bounds
fallbacks, then take the component-wise min/max of what remains (world
bounds when nothing remains).  List indexing `b[i]` on the per-feature
bboxes is modelled with a defaulted lookup; every bbox produced by
`calculate_bbox_from_geometry` has exactly 4 entries
(`calculate_bbox_four`), so the default is never used. -/
def unionNonFallback (bboxes : List (List Int)) : List Int :=
  match bboxes.filter (fun b => b ≠ WORLD_BOUNDS_BBOX) with
  | [] => WORLD_BOUNDS_BBOX
  | b :: bs =>
    [(bs.map (fun x => x.getD 0 0)).foldl min (b.getD 0 0),
     (bs.map (fun x => x.getD 1 0)).foldl min (b.getD 1 0),
     (bs.map (fun x => x.getD 2 0)).foldl max (b.getD 2 0),
     (bs.map (fun x => x.getD 3 0)).foldl max (b.getD 3 0)]

/-- `GeoJSONProcessor._calculate_collection_bbox`. -/
def calculate_collection_bbox (doc : JsonO) : Except String (List Int) :=
  match jLookup doc "type" with
  | some (.str "Feature") =>
    .ok (calculate_bbox_from_geometry (pyOrEmptyObj (jLookup doc "geometry")))
  | some (.str "FeatureCollection") =>
    let features := (jLookup doc "features").getD (Json.arrOf [])
    if jsonTruthy features = false then .ok WORLD_BOUNDS_BBOX
    else
      match features with
      | .arr fsA =>
        (match mapME featureGeometryBbox fsA.toList with
         | .ok bboxes => .ok (unionNonFallback bboxes)
         | .error e => .error e)
      | _ => .error "TypeError: features object is not iterable"
  | _ => .ok WORLD_BOUNDS_BBOX

/-- `GeoJSONProcessor._build_stac_item`: GeoJSON-specific properties and
assets, then the shared constructor.  `now` stands for the external clock
read `get_current_datetime_iso()`. -/
def geojson_build_stac_item (now item_id : String) (geometry : Json)
    (bbox : List Int) (properties : JsonO) (collection_id bucket key : String) :
    StacItem :=
  let feature_datetime :=
    pyOrJ (jLookup properties "datetime")
      (pyOrJ (jLookup properties "date") (.str now))
  let stac_properties :=
    (properties.toPairs.filter (fun kv => kv.1 ≠ "datetime" ∧ kv.1 ≠ "date")).foldl
      (fun acc kv => objSet acc kv.1 kv.2)
      (JsonO.ofPairs
        [("datetime", feature_datetime), ("data_type", .str "vector"),
         ("geometry_simplified", .bool true)])
  let assets := JsonO.ofPairs
    [("source", Json.objOf
      [("href", .str ("s3://" ++ bucket ++ "/" ++ key)),
       ("title", .str "Source GeoJSON"),
       ("type", .str "application/geo+json"),
       ("roles", Json.arrOf [.str "data"])])]
  build_stac_item item_id collection_id geometry bbox stac_properties assets none

/-- Tail of the FeatureCollection branch of
`_create_stac_item_from_geojson`: document-level bbox, rectangle geometry,
then item construction (on the post-mutation document). -/
def createFCItem (now item_id : String) (post : JsonO)
    (bucket key collection_id : String) (props : JsonO) :
    Except String (StacItem × JsonO) :=
  match calculate_collection_bbox post with
  | .ok bbox =>
    (match geometry_from_bbox bbox with
     | .ok geometry =>
       .ok (geojson_build_stac_item now item_id geometry bbox props
             collection_id bucket key, post)
     | .error e => .error e)
  | .error e => .error e

/-- `GeoJSONProcessor._create_stac_item_from_geojson` (whole-document mode).
Returns the constructed item together with the post-state of the input
document: Python's `properties.setdefault` mutates the caller document in
place exactly when the document's `properties` entry is a non-empty dict
(`geojson_data.get("properties") or ` a fresh dict aliases it then), and the
state-passing result records that. -/
def create_stac_item_from_geojson (now item_id : String) (doc : JsonO)
    (bucket key collection_id : String) : Except String (StacItem × JsonO) :=
  match jLookup doc "type" with
  | some (.str "Feature") =>
    let geometry := pyOrEmptyObj (jLookup doc "geometry")
    (match pyOrEmptyObj (jLookup doc "properties") with
     | .obj pkvs =>
       (match calculate_collection_bbox doc with
        | .ok bbox =>
          .ok (geojson_build_stac_item now item_id geometry bbox pkvs
                collection_id bucket key, doc)
        | .error e => .error e)
     | _ => .error "AttributeError: properties has no attribute get")
  | some (.str "FeatureCollection") =>
    (match pyOrJ (jLookup doc "features") (Json.arrOf []) with
     | .arr .nil => .error "FeatureCollection contains no features."
     | .arr (.cons f0 fsRest) =>
       let n : Int := (JsonA.cons f0 fsRest).toList.length
       (match jLookup doc "properties" with
        | some (.obj (.cons k0 v0 prest)) =>
          let props := setdefaultKv (.cons k0 v0 prest) "feature_count" (.num n)
          let post := objSet doc "properties" (.obj props)
          createFCItem now item_id post bucket key collection_id props
        | some j =>
          if jsonTruthy j then .error "AttributeError: properties has no attribute setdefault"
          else createFCItem now item_id doc bucket key collection_id
            (setdefaultKv .nil "feature_count" (.num n))
        | none => createFCItem now item_id doc bucket key collection_id
            (setdefaultKv .nil "feature_count" (.num n)))
     | _ => .error "TypeError: object has no len()")
  | _ => .error "Invalid GeoJSON type: expected Feature or FeatureCollection."

/-! ## Lemmas about dictionary updates and per-feature bboxes -/

theorem objSet_lookup_self : ∀ (kvs : JsonO) (k : String) (v : Json),
    jLookup (objSet kvs k v) k = some v
  | .nil, k, v => by simp [objSet, jLookup]
  | .cons k0 v0 rest, k, v => by
    by_cases h : k0 = k
    · simp [objSet, h, jLookup]
    · simp [objSet, h, jLookup, objSet_lookup_self rest k v]

theorem jLookup_objSet_ne : ∀ (kvs : JsonO) (k' k : String) (v : Json),
    k' ≠ k → jLookup (objSet kvs k' v) k = jLookup kvs k
  | .nil, k', k, v => fun h => by simp [objSet, jLookup, h]
  | .cons k0 v0 rest, k', k, v => fun h => by
    by_cases h0 : k0 = k'
    · simp [objSet, h0, jLookup, h]
    · simp [objSet, h0, jLookup, jLookup_objSet_ne rest k' k v h]

theorem mapME_ok_of_forall (f : α → Except String β) :
    ∀ l : List α, (∀ x ∈ l, ∃ y, f x = .ok y) → ∃ ys, mapME f l = .ok ys := by
  intro l
  induction l with
  | nil => exact fun _ => ⟨[], rfl⟩
  | cons x xs ih =>
    intro h
    obtain ⟨y, hy⟩ := h x (by simp)
    obtain ⟨ys, hys⟩ := ih (fun z hz => h z (by simp [hz]))
    exact ⟨y :: ys, by simp [mapME, hy, hys]⟩

/-- Every bbox produced by `calculate_bbox_from_geometry` has exactly the
four components. -/
theorem calculate_bbox_four (g : Json) :
    ∃ a b c d : Int, calculate_bbox_from_geometry g = [a, b, c, d] := by
  unfold calculate_bbox_from_geometry
  split
  · exact ⟨-180, -90, 180, 90, rfl⟩
  · exact ⟨-180, -90, 180, 90, rfl⟩
  · split
    · rename_i coords bbox hbbox
      unfold calculate_bbox_from_coords at hbbox
      split at hbbox
      · rename_i l ls a as' hlon hlat
        simp only [Option.some.injEq] at hbbox
        exact ⟨_, _, _, _, hbbox.symm⟩
      · exact absurd hbbox (by simp)
    · exact ⟨-180, -90, 180, 90, rfl⟩

/-- The filtered min/max union always has exactly four components. -/
theorem unionNonFallback_four (bbs : List (List Int)) :
    ∃ a b c d : Int, unionNonFallback bbs = [a, b, c, d] := by
  unfold unionNonFallback
  split
  · exact ⟨-180, -90, 180, 90, rfl⟩
  · exact ⟨_, _, _, _, rfl⟩

/-- On a FeatureCollection whose features are all dicts,
`_calculate_collection_bbox` computes the filtered min/max union of the
per-feature bboxes. -/
theorem collection_bbox_eq_union (doc : JsonO) (f0 : Json) (fsRest : JsonA)
    (bbs : List (List Int))
    (ht : jLookup doc "type" = some (.str "FeatureCollection"))
    (hf : jLookup doc "features" = some (.arr (.cons f0 fsRest)))
    (hbbs : mapME featureGeometryBbox (JsonA.cons f0 fsRest).toList = .ok bbs) :
    calculate_collection_bbox doc = .ok (unionNonFallback bbs) := by
  unfold calculate_collection_bbox
  rw [ht, hf]
  simp only [Option.getD_some, jsonTruthy]
  rw [hbbs]
  rfl

/-- On a FeatureCollection whose features are all dicts,
`_calculate_collection_bbox` always succeeds with a four-component bbox. -/
theorem collection_bbox_ok_shape (doc : JsonO) (fsA : JsonA)
    (ht : jLookup doc "type" = some (.str "FeatureCollection"))
    (hf : jLookup doc "features" = some (.arr fsA))
    (hobj : ∀ f ∈ fsA.toList, ∃ kv, f = .obj kv) :
    ∃ a b c d : Int, calculate_collection_bbox doc = .ok [a, b, c, d] := by
  cases fsA with
  | nil =>
    refine ⟨-180, -90, 180, 90, ?_⟩
    show calculate_collection_bbox doc = .ok WORLD_BOUNDS_BBOX
    unfold calculate_collection_bbox
    rw [ht, hf]
    rfl
  | cons f0 fsRest =>
    have hside : ∀ f ∈ (JsonA.cons f0 fsRest).toList, ∃ y,
        featureGeometryBbox f = .ok y := by
      intro f hfm
      obtain ⟨kv, rfl⟩ := hobj f hfm
      exact ⟨_, rfl⟩
    obtain ⟨bbs, hbbs⟩ := mapME_ok_of_forall featureGeometryBbox
      ((JsonA.cons f0 fsRest).toList) hside
    obtain ⟨a, b, c, d, h4⟩ := unionNonFallback_four bbs
    exact ⟨a, b, c, d,
      (collection_bbox_eq_union doc f0 fsRest bbs ht hf hbbs).trans
        (congrArg Except.ok h4)⟩

/-! ## Evaluation lemmas for whole-document item construction -/

theorem create_fc_eval (now item_id bucket key coll : String) (doc : JsonO)
    (f0 : Json) (fsRest : JsonA)
    (ht : jLookup doc "type" = some (.str "FeatureCollection"))
    (hf : jLookup doc "features" = some (.arr (.cons f0 fsRest))) :
    create_stac_item_from_geojson now item_id doc bucket key coll =
      (match jLookup doc "properties" with
       | some (.obj (.cons k0 v0 prest)) =>
         createFCItem now item_id
           (objSet doc "properties" (.obj (setdefaultKv (.cons k0 v0 prest)
             "feature_count" (.num (JsonA.cons f0 fsRest).toList.length))))
           bucket key coll
           (setdefaultKv (.cons k0 v0 prest) "feature_count"
             (.num (JsonA.cons f0 fsRest).toList.length))
       | some j =>
         if jsonTruthy j then
           .error "AttributeError: properties has no attribute setdefault"
         else
           createFCItem now item_id doc bucket key coll
             (setdefaultKv .nil "feature_count"
               (.num (JsonA.cons f0 fsRest).toList.length))
       | none =>
         createFCItem now item_id doc bucket key coll
           (setdefaultKv .nil "feature_count"
             (.num (JsonA.cons f0 fsRest).toList.length))) := by
  unfold create_stac_item_from_geojson
  rw [ht, hf]
  rfl

theorem create_fc_props_none (now item_id bucket key coll : String)
    (doc : JsonO) (f0 : Json) (fsRest : JsonA)
    (ht : jLookup doc "type" = some (.str "FeatureCollection"))
    (hf : jLookup doc "features" = some (.arr (.cons f0 fsRest)))
    (hp : jLookup doc "properties" = none) :
    create_stac_item_from_geojson now item_id doc bucket key coll =
      createFCItem now item_id doc bucket key coll
        (.cons "feature_count" (.num (JsonA.cons f0 fsRest).toList.length) .nil) := by
  rw [create_fc_eval now item_id bucket key coll doc f0 fsRest ht hf, hp]
  rfl

theorem create_fc_props_falsy (now item_id bucket key coll : String)
    (doc : JsonO) (f0 : Json) (fsRest : JsonA) (j : Json)
    (ht : jLookup doc "type" = some (.str "FeatureCollection"))
    (hf : jLookup doc "features" = some (.arr (.cons f0 fsRest)))
    (hp : jLookup doc "properties" = some j) (hj : jsonTruthy j = false) :
    create_stac_item_from_geojson now item_id doc bucket key coll =
      createFCItem now item_id doc bucket key coll
        (.cons "feature_count" (.num (JsonA.cons f0 fsRest).toList.length) .nil) := by
  rw [create_fc_eval now item_id bucket key coll doc f0 fsRest ht hf, hp]
  cases j with
  | null => rfl
  | bool b =>
    cases b
    · rfl
    · simp [jsonTruthy] at hj
  | num n =>
    have hn : n = 0 := by simpa [jsonTruthy] using hj
    subst hn
    rfl
  | str s =>
    have hs : s = "" := by simpa [jsonTruthy] using hj
    subst hs
    rfl
  | arr xs =>
    cases xs
    · rfl
    · simp [jsonTruthy] at hj
  | obj kvs =>
    cases kvs
    · rfl
    · simp [jsonTruthy] at hj

theorem create_fc_props_alias (now item_id bucket key coll : String)
    (doc : JsonO) (f0 : Json) (fsRest : JsonA) (k0 : String) (v0 : Json)
    (prest : JsonO)
    (ht : jLookup doc "type" = some (.str "FeatureCollection"))
    (hf : jLookup doc "features" = some (.arr (.cons f0 fsRest)))
    (hp : jLookup doc "properties" = some (.obj (.cons k0 v0 prest))) :
    create_stac_item_from_geojson now item_id doc bucket key coll =
      createFCItem now item_id
        (objSet doc "properties" (.obj (setdefaultKv (.cons k0 v0 prest)
          "feature_count" (.num (JsonA.cons f0 fsRest).toList.length))))
        bucket key coll
        (setdefaultKv (.cons k0 v0 prest) "feature_count"
          (.num (JsonA.cons f0 fsRest).toList.length)) := by
  rw [create_fc_eval now item_id bucket key coll doc f0 fsRest ht hf, hp]

theorem createFCItem_snd (now item_id bucket key coll : String)
    (p : JsonO) (props : JsonO) (post : JsonO)
    (h : (createFCItem now item_id p bucket key coll props).map Prod.snd =
      .ok post) : post = p := by
  unfold createFCItem at h
  split at h
  · split at h
    · simpa [Except.map] using h.symm
    · simp [Except.map] at h
  · simp [Except.map] at h

theorem setdefaultKv_toPairs_of_none (pkvs : JsonO) (k : String) (v : Json)
    (h : jLookup pkvs k = none) :
    (setdefaultKv pkvs k v).toPairs = pkvs.toPairs ++ [(k, v)] := by
  simp [setdefaultKv, h, JsonO.toPairs_ofPairs]

/-- The constructed item's properties contain the final `feature_count`
entry of the inbound properties (which survives the datetime/date filter and
the merge). -/
theorem jLookup_build_props (now item_id : String) (geometry : Json)
    (bbox : List Int) (props : JsonO) (coll bucket key : String)
    (l : List (String × Json)) (v : Json)
    (hsplit : props.toPairs = l ++ [("feature_count", v)]) :
    jLookup (geojson_build_stac_item now item_id geometry bbox props
      coll bucket key).properties "feature_count" = some v := by
  unfold geojson_build_stac_item build_stac_item
  simp only [hsplit, List.filter_append, List.foldl_append]
  norm_num [List.filter, List.foldl, objSet_lookup_self]

/-- `createFCItem` on a FeatureCollection with a four-component bbox
produces the built item (with the rectangle geometry) and the given
document, and the final `feature_count` entry of the properties is
retrievable on the item. -/
theorem fc_item_fresh_count (now item_id bucket key coll : String) (p : JsonO)
    (props : JsonO) (l : List (String × Json)) (v : Json) (fsA : JsonA)
    (ht : jLookup p "type" = some (.str "FeatureCollection"))
    (hf : jLookup p "features" = some (.arr fsA))
    (hobj : ∀ f ∈ fsA.toList, ∃ kv, f = .obj kv)
    (hsplit : props.toPairs = l ++ [("feature_count", v)]) :
    ∃ item, createFCItem now item_id p bucket key coll props = .ok (item, p) ∧
      jLookup item.properties "feature_count" = some v := by
  obtain ⟨a, b, c, d, hbb⟩ := collection_bbox_ok_shape p fsA ht hf hobj
  unfold createFCItem
  rw [hbb]
  refine ⟨_, rfl, ?_⟩
  exact jLookup_build_props now item_id _ [a, b, c, d] props coll bucket key
    l v hsplit

/-! ## Claim C6 -/

/-- C6: for a FeatureCollection document, the collection-level bbox is the
component-wise min/max union of exactly those per-feature bboxes that are
not the world-bounds fallback; fallback bboxes are filtered out before
taking min/max, and when nothing remains to union the result is exactly
`[-180, -90, 180, 90]`. -/
theorem C6_collection_bbox_union :
    ∀ (doc : JsonO) (fsA : JsonA) (bbs : List (List Int)),
      jLookup doc "type" = some (.str "FeatureCollection") →
      jLookup doc "features" = some (.arr fsA) →
      mapME featureGeometryBbox fsA.toList = .ok bbs →
      calculate_collection_bbox doc = .ok (unionNonFallback bbs) ∧
      (bbs.filter (fun b => b ≠ WORLD_BOUNDS_BBOX) = [] →
        calculate_collection_bbox doc = .ok WORLD_BOUNDS_BBOX) ∧
      (∀ (b : List Int) (bs : List (List Int)),
        bbs.filter (fun b => b ≠ WORLD_BOUNDS_BBOX) = b :: bs →
        calculate_collection_bbox doc =
          .ok [(bs.map (fun x => x.getD 0 0)).foldl min (b.getD 0 0),
               (bs.map (fun x => x.getD 1 0)).foldl min (b.getD 1 0),
               (bs.map (fun x => x.getD 2 0)).foldl max (b.getD 2 0),
               (bs.map (fun x => x.getD 3 0)).foldl max (b.getD 3 0)]) := by
  intro doc fsA bbs ht hf hbbs
  cases fsA with
  | nil =>
    have hbbs0 : bbs = [] := by
      have : Except.ok (ε := String) ([] : List (List Int)) = .ok bbs := hbbs
      simpa using this
    subst hbbs0
    have hcalc : calculate_collection_bbox doc = .ok WORLD_BOUNDS_BBOX := by
      unfold calculate_collection_bbox
      rw [ht, hf]
      rfl
    refine ⟨by rw [hcalc]; rfl, fun _ => hcalc, fun b bs hcontra => ?_⟩
    simp at hcontra
  | cons f0 fsRest =>
    have hu := collection_bbox_eq_union doc f0 fsRest bbs ht hf hbbs
    refine ⟨hu, fun hnil => ?_, fun b bs hcons => ?_⟩
    · rw [hu]
      unfold unionNonFallback
      rw [hnil]
    · rw [hu]
      unfold unionNonFallback
      rw [hcons]

/-- Witness for C6: one real feature and one null-geometry feature — only
the real bbox is unioned; and in a second document where every feature
falls back, the collection bbox is exactly the world bounds. -/
theorem C6_collection_bbox_union_witness :
    calculate_collection_bbox
      (.cons "type" (.str "FeatureCollection")
        (.cons "features" (Json.arrOf [Json.objOf [("geometry", .null)]]) .nil)) =
      .ok WORLD_BOUNDS_BBOX ∧
    calculate_collection_bbox
      (.cons "type" (.str "FeatureCollection")
        (.cons "features" (Json.arrOf
          [Json.objOf [("geometry", Json.objOf
            [("type", .str "Point"),
             ("coordinates", Json.arrOf [.num 3, .num 4])])],
           Json.objOf [("geometry", .null)]]) .nil)) =
      .ok [([] : List (List Int)).map (fun x => x.getD 0 0) |>.foldl min
             (([3, 4, 3, 4] : List Int).getD 0 0),
           ([] : List (List Int)).map (fun x => x.getD 1 0) |>.foldl min
             (([3, 4, 3, 4] : List Int).getD 1 0),
           ([] : List (List Int)).map (fun x => x.getD 2 0) |>.foldl max
             (([3, 4, 3, 4] : List Int).getD 2 0),
           ([] : List (List Int)).map (fun x => x.getD 3 0) |>.foldl max
             (([3, 4, 3, 4] : List Int).getD 3 0)] :=
  ⟨(C6_collection_bbox_union
      (.cons "type" (.str "FeatureCollection")
        (.cons "features" (Json.arrOf [Json.objOf [("geometry", .null)]]) .nil))
      (JsonA.ofList [Json.objOf [("geometry", .null)]])
      [WORLD_BOUNDS_BBOX] rfl rfl (by decide)).2.1 (by decide),
   (C6_collection_bbox_union
      (.cons "type" (.str "FeatureCollection")
        (.cons "features" (Json.arrOf
          [Json.objOf [("geometry", Json.objOf
            [("type", .str "Point"),
             ("coordinates", Json.arrOf [.num 3, .num 4])])],
           Json.objOf [("geometry", .null)]]) .nil))
      (JsonA.ofList
        [Json.objOf [("geometry", Json.objOf
          [("type", .str "Point"),
           ("coordinates", Json.arrOf [.num 3, .num 4])])],
         Json.objOf [("geometry", .null)]])
      [[3, 4, 3, 4], WORLD_BOUNDS_BBOX] rfl rfl
      (by decide)).2.2 [3, 4, 3, 4] [] (by decide)⟩

/-! ## Claim C7 -/

/-- A 2-feature FeatureCollection whose caller-supplied properties already
contain a `feature_count` entry (with value 99). -/
def C7_doc : JsonO :=
  .cons "type" (.str "FeatureCollection")
    (.cons "features" (Json.arrOf [Json.objOf [], Json.objOf []])
      (.cons "properties" (Json.objOf [("feature_count", .num 99)]) .nil))

/-- C7 counterexample: on a 2-feature FeatureCollection whose caller
properties already carry `feature_count = 99`, the code's `setdefault`
preserves 99, so the resulting item's properties do not carry a
feature_count equal to the number of features. -/
theorem C7_feature_count_counterexample :
    (create_stac_item_from_geojson "2024-01-01T00:00:00Z" "item-1" C7_doc
        "bkt" "data/f.geojson" "coll").map
      (fun r => jLookup r.1.properties "feature_count") =
      .ok (some (.num 99)) ∧
    (Json.arrOf [Json.objOf [], Json.objOf []]) =
      .arr (.cons (Json.objOf []) (.cons (Json.objOf []) .nil)) ∧
    (JsonA.cons (Json.objOf []) (.cons (Json.objOf []) .nil)).toList.length = 2 ∧
    (Json.num 99) ≠ (Json.num 2) := by
  decide

/-- C7 (amended): in whole-document mode, for every non-empty
FeatureCollection whose features are dicts and whose caller-supplied
properties (if any) do not already contain a `feature_count` key, the
resulting catalog record's properties carry `feature_count` equal to the
number of features — set even when caller properties exist and are
otherwise empty, absent, or falsy; a pre-existing `feature_count` value is
preserved instead of being overwritten. -/
theorem C7_feature_count_amended :
    ∀ (now item_id bucket key coll : String) (doc : JsonO) (fsA : JsonA),
      jLookup doc "type" = some (.str "FeatureCollection") →
      jLookup doc "features" = some (.arr fsA) →
      fsA ≠ .nil →
      (∀ f ∈ fsA.toList, ∃ kv, f = .obj kv) →
      (match jLookup doc "properties" with
       | none => True
       | some (.obj pkvs) => jLookup pkvs "feature_count" = none
       | some j => jsonTruthy j = false) →
      ∃ (item : StacItem) (post : JsonO),
        create_stac_item_from_geojson now item_id doc bucket key coll =
          .ok (item, post) ∧
        jLookup item.properties "feature_count" =
          some (.num fsA.toList.length) := by
  intro now item_id bucket key coll doc fsA ht hf hne hobj hprops
  cases fsA with
  | nil => exact absurd rfl hne
  | cons f0 fsRest =>
    cases hp : jLookup doc "properties" with
    | none =>
      obtain ⟨item, hitem, hlook⟩ := fc_item_fresh_count now item_id bucket key
        coll doc (.cons "feature_count"
          (.num (JsonA.cons f0 fsRest).toList.length) .nil) []
        (.num (JsonA.cons f0 fsRest).toList.length) (.cons f0 fsRest) ht hf hobj
        rfl
      exact ⟨item, doc, by
        rw [create_fc_props_none now item_id bucket key coll doc f0 fsRest ht hf hp]
        exact hitem, hlook⟩
    | some j =>
      cases j with
      | obj pkvs =>
        cases pkvs with
        | nil =>
          obtain ⟨item, hitem, hlook⟩ := fc_item_fresh_count now item_id bucket
            key coll doc (.cons "feature_count"
              (.num (JsonA.cons f0 fsRest).toList.length) .nil) []
            (.num (JsonA.cons f0 fsRest).toList.length) (.cons f0 fsRest) ht hf
            hobj rfl
          exact ⟨item, doc, by
            rw [create_fc_props_falsy now item_id bucket key coll doc f0 fsRest
              (.obj .nil) ht hf hp rfl]
            exact hitem, hlook⟩
        | cons k0 v0 prest =>
          simp only [hp] at hprops
          have hpost_t : jLookup (objSet doc "properties"
              (.obj (setdefaultKv (.cons k0 v0 prest) "feature_count"
                (.num (JsonA.cons f0 fsRest).toList.length)))) "type" =
              some (.str "FeatureCollection") := by
            rw [jLookup_objSet_ne doc "properties" "type" _ (by decide)]
            exact ht
          have hpost_f : jLookup (objSet doc "properties"
              (.obj (setdefaultKv (.cons k0 v0 prest) "feature_count"
                (.num (JsonA.cons f0 fsRest).toList.length)))) "features" =
              some (.arr (.cons f0 fsRest)) := by
            rw [jLookup_objSet_ne doc "properties" "features" _ (by decide)]
            exact hf
          obtain ⟨item, hitem, hlook⟩ := fc_item_fresh_count now item_id bucket
            key coll
            (objSet doc "properties" (.obj (setdefaultKv (.cons k0 v0 prest)
              "feature_count" (.num (JsonA.cons f0 fsRest).toList.length))))
            (setdefaultKv (.cons k0 v0 prest) "feature_count"
              (.num (JsonA.cons f0 fsRest).toList.length))
            ((JsonO.cons k0 v0 prest).toPairs)
            (.num (JsonA.cons f0 fsRest).toList.length) (.cons f0 fsRest)
            hpost_t hpost_f hobj
            (setdefaultKv_toPairs_of_none (.cons k0 v0 prest) "feature_count" _
              hprops)
          exact ⟨item, _, by
            rw [create_fc_props_alias now item_id bucket key coll doc f0 fsRest
              k0 v0 prest ht hf hp]
            exact hitem, hlook⟩
      | null =>
        simp only [hp] at hprops
        obtain ⟨item, hitem, hlook⟩ := fc_item_fresh_count now item_id bucket
          key coll doc (.cons "feature_count"
            (.num (JsonA.cons f0 fsRest).toList.length) .nil) []
          (.num (JsonA.cons f0 fsRest).toList.length) (.cons f0 fsRest) ht hf
          hobj rfl
        exact ⟨item, doc, by
          rw [create_fc_props_falsy now item_id bucket key coll doc f0 fsRest
            .null ht hf hp rfl]
          exact hitem, hlook⟩
      | bool b =>
        simp only [hp] at hprops
        obtain ⟨item, hitem, hlook⟩ := fc_item_fresh_count now item_id bucket
          key coll doc (.cons "feature_count"
            (.num (JsonA.cons f0 fsRest).toList.length) .nil) []
          (.num (JsonA.cons f0 fsRest).toList.length) (.cons f0 fsRest) ht hf
          hobj rfl
        exact ⟨item, doc, by
          rw [create_fc_props_falsy now item_id bucket key coll doc f0 fsRest
            (.bool b) ht hf hp hprops]
          exact hitem, hlook⟩
      | num n =>
        simp only [hp] at hprops
        obtain ⟨item, hitem, hlook⟩ := fc_item_fresh_count now item_id bucket
          key coll doc (.cons "feature_count"
            (.num (JsonA.cons f0 fsRest).toList.length) .nil) []
          (.num (JsonA.cons f0 fsRest).toList.length) (.cons f0 fsRest) ht hf
          hobj rfl
        exact ⟨item, doc, by
          rw [create_fc_props_falsy now item_id bucket key coll doc f0 fsRest
            (.num n) ht hf hp hprops]
          exact hitem, hlook⟩
      | str s =>
        simp only [hp] at hprops
        obtain ⟨item, hitem, hlook⟩ := fc_item_fresh_count now item_id bucket
          key coll doc (.cons "feature_count"
            (.num (JsonA.cons f0 fsRest).toList.length) .nil) []
          (.num (JsonA.cons f0 fsRest).toList.length) (.cons f0 fsRest) ht hf
          hobj rfl
        exact ⟨item, doc, by
          rw [create_fc_props_falsy now item_id bucket key coll doc f0 fsRest
            (.str s) ht hf hp hprops]
          exact hitem, hlook⟩
      | arr xs =>
        simp only [hp] at hprops
        obtain ⟨item, hitem, hlook⟩ := fc_item_fresh_count now item_id bucket
          key coll doc (.cons "feature_count"
            (.num (JsonA.cons f0 fsRest).toList.length) .nil) []
          (.num (JsonA.cons f0 fsRest).toList.length) (.cons f0 fsRest) ht hf
          hobj rfl
        exact ⟨item, doc, by
          rw [create_fc_props_falsy now item_id bucket key coll doc f0 fsRest
            (.arr xs) ht hf hp hprops]
          exact hitem, hlook⟩

/-- Witness for C7 at a 2-feature FeatureCollection with empty caller
properties. -/
theorem C7_feature_count_amended_witness :
    ∃ (item : StacItem) (post : JsonO),
      create_stac_item_from_geojson "2024-01-01T00:00:00Z" "i"
        (.cons "type" (.str "FeatureCollection")
          (.cons "features" (Json.arrOf [Json.objOf [], Json.objOf []])
            (.cons "properties" (Json.objOf []) .nil)))
        "b" "k" "c" = .ok (item, post) ∧
      jLookup item.properties "feature_count" =
        some (.num (JsonA.ofList [Json.objOf [], Json.objOf []]).toList.length) :=
  C7_feature_count_amended "2024-01-01T00:00:00Z" "i" "b" "k" "c"
    (.cons "type" (.str "FeatureCollection")
      (.cons "features" (Json.arrOf [Json.objOf [], Json.objOf []])
        (.cons "properties" (Json.objOf []) .nil)))
    (JsonA.ofList [Json.objOf [], Json.objOf []])
    rfl rfl (by decide)
    (fun f hfm => by
      simp only [JsonA.ofList, JsonA.toList, List.mem_cons,
        List.not_mem_nil, or_false] at hfm
      cases hfm with
      | inl h => exact ⟨.nil, by rw [h]; rfl⟩
      | inr h => exact ⟨.nil, by rw [h]; rfl⟩)
    rfl

/-! ## Claim C8 -/

/-- A 1-feature FeatureCollection with non-empty caller properties (no
`feature_count`). -/
def C8_doc : JsonO :=
  .cons "type" (.str "FeatureCollection")
    (.cons "features" (Json.arrOf [Json.objOf []])
      (.cons "properties" (Json.objOf [("a", .num 1)]) .nil))

/-- The post-state of `C8_doc` after whole-document processing: its
properties object has gained a `feature_count` entry. -/
def C8_post : JsonO :=
  .cons "type" (.str "FeatureCollection")
    (.cons "features" (Json.arrOf [Json.objOf []])
      (.cons "properties"
        (Json.objOf [("a", .num 1), ("feature_count", .num 1)]) .nil))

/-- C8 counterexample: whole-document processing of a FeatureCollection
with non-empty caller properties mutates the caller-owned source document —
`properties.setdefault` adds a `feature_count` entry to the input's
properties map, so the document after processing differs from the input. -/
theorem C8_no_mutation_counterexample :
    (create_stac_item_from_geojson "2024-01-01T00:00:00Z" "item-1" C8_doc
        "bkt" "k.geojson" "coll").map Prod.snd = .ok C8_post ∧
    C8_post ≠ C8_doc := by
  decide

/-- C8 (amended): whole-document processing leaves the caller-owned source
document unchanged except in exactly one case: a FeatureCollection whose
`properties` entry is a non-empty dict, where that dict gains a
`feature_count` entry via `setdefault` (a no-op when the key already
exists); nothing else in the document is touched. -/
theorem C8_no_mutation_amended :
    ∀ (now item_id bucket key coll : String) (doc post : JsonO),
      (create_stac_item_from_geojson now item_id doc bucket key coll).map
        Prod.snd = .ok post →
      post = doc ∨
      ∃ (k0 : String) (v0 : Json) (prest : JsonO) (n : Int),
        jLookup doc "type" = some (.str "FeatureCollection") ∧
        jLookup doc "properties" = some (.obj (.cons k0 v0 prest)) ∧
        post = objSet doc "properties"
          (.obj (setdefaultKv (.cons k0 v0 prest) "feature_count" (.num n))) := by
  intro now item_id bucket key coll doc post h
  unfold create_stac_item_from_geojson at h
  split at h
  · -- Feature
    split at h
    · split at h
      · left
        simpa [Except.map] using h.symm
      · simp [Except.map] at h
    · simp [Except.map] at h
  · -- FeatureCollection
    rename_i ht
    split at h
    · simp [Except.map] at h
    · split at h
      · -- aliased non-empty properties dict
        rename_i f0 fsRest hpy x2 k0 v0 prest hp
        right
        exact ⟨k0, v0, prest, ((JsonA.cons f0 fsRest).toList.length : Int), ht,
          hp, createFCItem_snd now item_id bucket key coll _ _ post h⟩
      · -- falsy or non-dict properties value
        split at h
        · simp [Except.map] at h
        · left
          exact createFCItem_snd now item_id bucket key coll doc _ post h
      · -- properties absent
        left
        exact createFCItem_snd now item_id bucket key coll doc _ post h
    · simp [Except.map] at h
  · simp [Except.map] at h

/-- Witness for C8 on `C8_doc`: the amended mutation characterization at a
concrete document (right disjunct holds). -/
theorem C8_no_mutation_amended_witness :
    C8_post = C8_doc ∨
    ∃ (k0 : String) (v0 : Json) (prest : JsonO) (n : Int),
      jLookup C8_doc "type" = some (.str "FeatureCollection") ∧
      jLookup C8_doc "properties" = some (.obj (.cons k0 v0 prest)) ∧
      C8_post = objSet C8_doc "properties"
        (.obj (setdefaultKv (.cons k0 v0 prest) "feature_count" (.num n))) :=
  C8_no_mutation_amended "2024-01-01T00:00:00Z" "item-1" "bkt" "k.geojson"
    "coll" C8_doc C8_post (by decide)

/-! ## geojson_processor.py: decomposed (deconstructed) mode

`ProcessorBase` itself is not part of the sources; its response helpers are
modelled from the spec.  The per-feature work (`_create_stac_item`,
`validate_stac_item`, `publish_message`) touches external collaborators
(S3 asset layout, the jsonschema engine, SNS), so the loop is embedded with
those three steps as function parameters; each `Except.error` models a
raised exception. -/

/-- Modelled from the spec: a ProcessorBase response record
(status + message body). -/
structure Response where
  statusCode : Nat
  body : String
deriving DecidableEq, Repr

/-- Modelled from the spec: `ProcessorBase.success_message` (the file
defining it is outside src/): status 200 with the message body. -/
def success_message (message : String) : Response := ⟨200, message⟩

/-- Modelled from the spec: `ProcessorBase.failure_message`: status 500
with the diagnostic text (the accompanying stack trace is not modelled). -/
def failure_message (err : String) : Response := ⟨500, err⟩

/-- One iteration of the `_process_deconstructed` loop body: build the item
(any exception is caught and the feature skipped), validate it (a
validation error skips the feature), publish it (an exception skips the
feature, uncounted); `true` iff the feature was published. -/
def featurePublished (create : α → Except String β)
    (validate : β → Except String Unit) (publish : β → Except String Unit)
    (f : α) : Bool :=
  match create f with
  | .error _ => false
  | .ok item =>
    match validate item with
    | .error _ => false
    | .ok _ =>
      match publish item with
      | .error _ => false
      | .ok _ => true

/-- The running `published_count` of the sequential loop. -/
def publishedCount (create : α → Except String β)
    (validate : β → Except String Unit) (publish : β → Except String Unit) :
    List α → Nat
  | [] => 0
  | f :: fs =>
    (if featurePublished create validate publish f then 1 else 0) +
      publishedCount create validate publish fs

/-- `GeoJSONProcessor._process_deconstructed`: run the loop, then report
failure when nothing was published, else success naming published/total. -/
def process_deconstructed (create : α → Except String β)
    (validate : β → Except String Unit) (publish : β → Except String Unit)
    (features : List α) : Response :=
  let published := publishedCount create validate publish features
  if published = 0 then
    failure_message ("Failed to publish any STAC items from " ++
      toString features.length ++ " features")
  else
    success_message ("GeoJSON processed successfully: " ++ toString published ++
      "/" ++ toString features.length ++ " STAC items published")

theorem publishedCount_append (create : α → Except String β)
    (validate : β → Except String Unit) (publish : β → Except String Unit)
    (l1 l2 : List α) :
    publishedCount create validate publish (l1 ++ l2) =
      publishedCount create validate publish l1 +
        publishedCount create validate publish l2 := by
  induction l1 with
  | nil => simp [publishedCount]
  | cons f fs ih => simp [publishedCount, ih]; omega

/-! ## Claim C3 -/

/-- C3: in decomposed mode each feature's construction, validation or
publish failure is isolated — the feature is skipped and the remaining
features are still processed and counted; after the loop, zero successes
yield a failure outcome (status 500), 1..N-1 successes yield a success
outcome naming how many of N were published (partial success, status 200),
and N successes yield the same success outcome with N/N (full success). -/
theorem C3_decomposed_isolation_and_accounting :
    ∀ (create : α → Except String β) (validate : β → Except String Unit)
      (publish : β → Except String Unit) (features pre post : List α) (f : α),
      (featurePublished create validate publish f = false →
        publishedCount create validate publish (pre ++ f :: post) =
          publishedCount create validate publish pre +
            publishedCount create validate publish post) ∧
      (publishedCount create validate publish features = 0 →
        process_deconstructed create validate publish features =
          failure_message ("Failed to publish any STAC items from " ++
            toString features.length ++ " features") ∧
        (process_deconstructed create validate publish features).statusCode =
          500) ∧
      (∀ p : Nat, publishedCount create validate publish features = p →
        1 ≤ p → p ≤ features.length - 1 →
        process_deconstructed create validate publish features =
          success_message ("GeoJSON processed successfully: " ++ toString p ++
            "/" ++ toString features.length ++ " STAC items published") ∧
        (process_deconstructed create validate publish features).statusCode =
          200) ∧
      (publishedCount create validate publish features = features.length →
        1 ≤ features.length →
        process_deconstructed create validate publish features =
          success_message ("GeoJSON processed successfully: " ++
            toString features.length ++ "/" ++ toString features.length ++
            " STAC items published") ∧
        (process_deconstructed create validate publish features).statusCode =
          200) := by
  intro create validate publish features pre post f
  refine ⟨fun hfail => ?_, fun hzero => ?_, fun p hp h1 h2 => ?_,
    fun hall h1 => ?_⟩
  · rw [publishedCount_append]
    simp [publishedCount, hfail]
  · constructor
    · simp only [process_deconstructed, hzero, if_pos]
    · simp only [process_deconstructed, hzero, if_pos, failure_message]
  · have hne : publishedCount create validate publish features ≠ 0 := by omega
    constructor
    · simp only [process_deconstructed, hp, if_neg (by omega : ¬ p = 0)]
    · simp only [process_deconstructed, hp, if_neg (by omega : ¬ p = 0),
        success_message]
  · have hne : publishedCount create validate publish features ≠ 0 := by omega
    constructor
    · simp only [process_deconstructed, hall,
        if_neg (by omega : ¬ features.length = 0)]
    · simp only [process_deconstructed, hall,
        if_neg (by omega : ¬ features.length = 0), success_message]

/-- Witness for C3: a 2-feature batch where the first feature fails
construction and the second succeeds — partial success 1/2, and the failing
feature is skipped without aborting. -/
theorem C3_decomposed_isolation_and_accounting_witness :
    publishedCount (fun n : Nat => if n = 0 then .error "invalid" else .ok n)
        (fun _ => .ok ()) (fun _ => .ok ()) ([] ++ 0 :: [1]) =
      publishedCount (fun n : Nat => if n = 0 then .error "invalid" else .ok n)
        (fun _ => .ok ()) (fun _ => .ok ()) ([] : List Nat) +
      publishedCount (fun n : Nat => if n = 0 then .error "invalid" else .ok n)
        (fun _ => .ok ()) (fun _ => .ok ()) [1] ∧
    process_deconstructed (fun n : Nat => if n = 0 then .error "invalid" else .ok n)
        (fun _ => .ok ()) (fun _ => .ok ()) [0, 1] =
      success_message ("GeoJSON processed successfully: " ++ toString 1 ++
        "/" ++ toString ([0, 1] : List Nat).length ++ " STAC items published") ∧
    (process_deconstructed (fun n : Nat => if n = 0 then .error "invalid" else .ok n)
        (fun _ => .ok ()) (fun _ => .ok ()) [0, 1]).statusCode = 200 :=
  ⟨(C3_decomposed_isolation_and_accounting
      (fun n : Nat => if n = 0 then .error "invalid" else .ok n)
      (fun _ => .ok ()) (fun _ => .ok ()) [0, 1] [] [1] 0).1 (by decide),
   ((C3_decomposed_isolation_and_accounting
      (fun n : Nat => if n = 0 then .error "invalid" else .ok n)
      (fun _ => .ok ()) (fun _ => .ok ()) [0, 1] [] [1] 0).2.2.1 1 (by decide)
      (by decide) (by decide)).1,
   ((C3_decomposed_isolation_and_accounting
      (fun n : Nat => if n = 0 then .error "invalid" else .ok n)
      (fun _ => .ok ()) (fun _ => .ok ()) [0, 1] [] [1] 0).2.2.1 1 (by decide)
      (by decide) (by decide)).2⟩

/-! ## stac_validator.py: local validation with the MultiPolygon bypass

The jsonschema Draft7 engine is an external collaborator; its
`iter_errors` runs are a parameter (`ValOracle`), and `best_match` on a
non-empty error list is modelled as taking the first error.  The slice
modelled is `_validate_from_uri` after the main schema file has been read
(file IO is external), with `href=None`; in the normal-path message only
string ids are rendered. -/

structure ValOracle where
  iterErrors : Json → Json → List String

/-- `jsonschema.exceptions.best_match` on a non-empty error list, viewed
abstractly: one of the errors (the first in the engine's order). -/
def bestMatchMsg (errs : List String) : String := errs.headD ""

/-- The placeholder geometry substituted for structural validation:
a single point. -/
def pointPlaceholder : Json :=
  Json.objOf [("type", .str "Point"), ("coordinates", Json.arrOf [.num 0, .num 0])]

/-- The degenerate bbox substituted alongside the placeholder point. -/
def degenerateBbox : Json := Json.arrOf [.num 0, .num 0, .num 0, .num 0]

/-- `LocalJsonSchemaValidator._validate_multipolygon`: validate the
geometry against the standalone MultiPolygon schema, then validate the
record's structure on a copy with the placeholder point and degenerate
bbox. -/
def validate_multipolygon (oracle : ValOracle) (stac_dict : JsonO)
    (geometry : Json) (stac_schema : Json) (store : JsonO) :
    Except String Unit :=
  match jLookup store "https://geojson.org/schema/MultiPolygon.json" with
  | some multipolygon_schema =>
    (match oracle.iterErrors multipolygon_schema geometry with
     | [] =>
       let modified := objSet (objSet stac_dict "geometry" pointPlaceholder)
         "bbox" degenerateBbox
       (match oracle.iterErrors stac_schema (.obj modified) with
        | [] => .ok ()
        | e :: es =>
          .error ("STAC item validation failed (structure): " ++
            bestMatchMsg (e :: es)))
     | e :: es =>
       .error ("MultiPolygon geometry validation failed: " ++
         bestMatchMsg (e :: es)))
  | none => .error "MultiPolygon schema not found for validation"

/-- Rendering of the optional item id inside the normal-path failure
message (string ids only; a null id is skipped, as in the source). -/
def idPart (stac_dict : JsonO) : String :=
  match jLookup stac_dict "id" with
  | some (.str sid) => "with ID " ++ sid ++ " "
  | _ => ""

/-- `LocalJsonSchemaValidator._validate_from_uri` after the schema file
has been loaded: dispatch MultiPolygon records to the bypass, validate all
other records against the full schema. -/
def validate_from_uri (oracle : ValOracle) (store : JsonO) (main_schema : Json)
    (stac_dict : JsonO) (stac_object_type schema_uri : String) :
    Except String Unit :=
  match (jLookup stac_dict "geometry").getD (Json.objOf []) with
  | .obj gkvs =>
    let geom_type := (jLookup gkvs "type").getD (.str "unknown")
    if geom_type = .str "MultiPolygon" then
      validate_multipolygon oracle stac_dict (.obj gkvs) main_schema store
    else
      (match oracle.iterErrors main_schema (.obj stac_dict) with
       | [] => .ok ()
       | e :: es =>
         .error ("Validation failed for " ++ stac_object_type ++ " " ++
           idPart stac_dict ++ "against schema at " ++ schema_uri ++ "\n" ++
           bestMatchMsg (e :: es)))
  | _ => .error "Schema validation error: geometry attribute error"

/-! ## Claim C4 -/

/-- C4: a record whose geometry type is MultiPolygon has its geometry
validated directly against the standalone MultiPolygon schema and,
separately, its structure validated with the geometry replaced by a
placeholder Point and a degenerate bbox; the outcome is Valid iff both
sub-validations pass, each failure surfacing its own diagnostic; records
with any other geometry type take the normal full-schema path. -/
theorem C4_multipolygon_bypass :
    ∀ (oracle : ValOracle) (store : JsonO) (main_schema : Json)
      (stac_dict gkvs : JsonO) (mps : Json) (otype uri : String),
      jLookup stac_dict "geometry" = some (.obj gkvs) →
      jLookup store "https://geojson.org/schema/MultiPolygon.json" = some mps →
      (jLookup gkvs "type" = some (.str "MultiPolygon") →
        (validate_from_uri oracle store main_schema stac_dict otype uri =
            .ok () ↔
          oracle.iterErrors mps (.obj gkvs) = [] ∧
          oracle.iterErrors main_schema
            (.obj (objSet (objSet stac_dict "geometry" pointPlaceholder)
              "bbox" degenerateBbox)) = []) ∧
        (∀ e es, oracle.iterErrors mps (.obj gkvs) = e :: es →
          validate_from_uri oracle store main_schema stac_dict otype uri =
            .error ("MultiPolygon geometry validation failed: " ++
              bestMatchMsg (e :: es))) ∧
        (∀ e es, oracle.iterErrors mps (.obj gkvs) = [] →
          oracle.iterErrors main_schema
            (.obj (objSet (objSet stac_dict "geometry" pointPlaceholder)
              "bbox" degenerateBbox)) = e :: es →
          validate_from_uri oracle store main_schema stac_dict otype uri =
            .error ("STAC item validation failed (structure): " ++
              bestMatchMsg (e :: es)))) ∧
      (∀ t, jLookup gkvs "type" = some (.str t) → t ≠ "MultiPolygon" →
        validate_from_uri oracle store main_schema stac_dict otype uri =
          (match oracle.iterErrors main_schema (.obj stac_dict) with
           | [] => .ok ()
           | e :: es =>
             .error ("Validation failed for " ++ otype ++ " " ++
               idPart stac_dict ++ "against schema at " ++ uri ++ "\n" ++
               bestMatchMsg (e :: es)))) := by
  intro oracle store main_schema stac_dict gkvs mps otype uri hg hmps
  have hbase : validate_from_uri oracle store main_schema stac_dict otype uri =
      (let geom_type := (jLookup gkvs "type").getD (.str "unknown")
       if geom_type = .str "MultiPolygon" then
         validate_multipolygon oracle stac_dict (.obj gkvs) main_schema store
       else
         (match oracle.iterErrors main_schema (.obj stac_dict) with
          | [] => .ok ()
          | e :: es =>
            .error ("Validation failed for " ++ otype ++ " " ++
              idPart stac_dict ++ "against schema at " ++ uri ++ "\n" ++
              bestMatchMsg (e :: es)))) := by
    unfold validate_from_uri
    rw [hg]
    rfl
  constructor
  · intro hmp
    have hdispatch : validate_from_uri oracle store main_schema stac_dict
        otype uri =
        validate_multipolygon oracle stac_dict (.obj gkvs) main_schema store := by
      rw [hbase, hmp]
      simp
    have hmpeval : validate_multipolygon oracle stac_dict (.obj gkvs)
        main_schema store =
        (match oracle.iterErrors mps (.obj gkvs) with
         | [] =>
           (match oracle.iterErrors main_schema
              (.obj (objSet (objSet stac_dict "geometry" pointPlaceholder)
                "bbox" degenerateBbox)) with
            | [] => .ok ()
            | e :: es =>
              .error ("STAC item validation failed (structure): " ++
                bestMatchMsg (e :: es)))
         | e :: es =>
           .error ("MultiPolygon geometry validation failed: " ++
             bestMatchMsg (e :: es))) := by
      unfold validate_multipolygon
      rw [hmps]
    refine ⟨?_, fun e es he => ?_, fun e es hok he => ?_⟩
    · rw [hdispatch, hmpeval]
      constructor
      · intro h
        cases hmp1 : oracle.iterErrors mps (.obj gkvs) with
        | cons e es => rw [hmp1] at h; simp at h
        | nil =>
          rw [hmp1] at h
          cases hmp2 : oracle.iterErrors main_schema
              (.obj (objSet (objSet stac_dict "geometry" pointPlaceholder)
                "bbox" degenerateBbox)) with
          | cons e es => rw [hmp2] at h; simp at h
          | nil => exact ⟨rfl, rfl⟩
      · intro ⟨h1, h2⟩
        rw [h1, h2]
    · rw [hdispatch, hmpeval, he]
    · rw [hdispatch, hmpeval, hok, he]
  · intro t ht hne
    rw [hbase, ht]
    simp only [Option.getD_some]
    rw [if_neg (by simp [hne])]

/-- Witness for C4 with a concrete oracle accepting the geometry and the
placeholder structure, plus a failing-geometry oracle surfacing the
MultiPolygon-specific diagnostic. -/
theorem C4_multipolygon_bypass_witness :
    validate_from_uri ⟨fun _ _ => []⟩
      (.cons "https://geojson.org/schema/MultiPolygon.json" (Json.objOf []) .nil)
      (Json.objOf [])
      (.cons "geometry" (Json.objOf [("type", .str "MultiPolygon")]) .nil)
      "ITEM" "file://item.json" = .ok () ∧
    validate_from_uri ⟨fun _ _ => ["bad nesting"]⟩
      (.cons "https://geojson.org/schema/MultiPolygon.json" (Json.objOf []) .nil)
      (Json.objOf [])
      (.cons "geometry" (Json.objOf [("type", .str "MultiPolygon")]) .nil)
      "ITEM" "file://item.json" =
      .error ("MultiPolygon geometry validation failed: " ++
        bestMatchMsg ["bad nesting"]) :=
  ⟨((C4_multipolygon_bypass ⟨fun _ _ => []⟩
      (.cons "https://geojson.org/schema/MultiPolygon.json" (Json.objOf []) .nil)
      (Json.objOf [])
      (.cons "geometry" (Json.objOf [("type", .str "MultiPolygon")]) .nil)
      (JsonO.ofPairs [("type", .str "MultiPolygon")]) (Json.objOf [])
      "ITEM" "file://item.json" rfl rfl).1 rfl).1.mpr ⟨rfl, rfl⟩,
   ((C4_multipolygon_bypass ⟨fun _ _ => ["bad nesting"]⟩
      (.cons "https://geojson.org/schema/MultiPolygon.json" (Json.objOf []) .nil)
      (Json.objOf [])
      (.cons "geometry" (Json.objOf [("type", .str "MultiPolygon")]) .nil)
      (JsonO.ofPairs [("type", .str "MultiPolygon")]) (Json.objOf [])
      "ITEM" "file://item.json" rfl rfl).1 rfl).2.1 "bad nesting" [] rfl⟩

/-! ## stac_validator.py: LocalSchemaUriMap.get_object_schema_uri

The filesystem is a parameter: `ex` is `Path.exists` on paths relative to
the schemas directory, `versionDirs` is the `glob("v*")` listing of the
`stac/` directory (directories only), and `schemasDir` the absolute
schemas directory used by `.absolute()`. -/

/-- Python `s.replace(old, new)`: replace all non-overlapping occurrences
left to right.  `fuel` bounds the scan; the haystack length plus one always
suffices and is used at the call site (the pattern is never empty there). -/
def replChars : Nat → List Char → List Char → List Char → List Char
  | 0, _, _, hay => hay
  | fuel + 1, pat, rep, hay =>
    match hay with
    | [] => []
    | c :: cs =>
      if pat.isPrefixOf hay then rep ++ replChars fuel pat rep (hay.drop pat.length)
      else c :: replChars fuel pat rep cs

/-- Python `s.replace(old, new)`. -/
def pyReplace (s pat rep : String) : String :=
  String.mk (replChars (s.data.length + 1) pat.data rep.data s.data)

/-- Python `s[1:]`. -/
def strDrop (n : Nat) (s : String) : String := String.mk (s.data.drop n)

/-- Substring scan: does the needle occur in the haystack. -/
def isInfixChars : List Char → List Char → Bool
  | needle, [] => needle.isEmpty
  | needle, c :: cs => needle.isPrefixOf (c :: cs) || isInfixChars needle cs

/-- `needle in haystack` on strings. -/
def strContains (hay needle : String) : Bool := isInfixChars needle.data hay.data

/-- Python whitespace stripped by `int()`. -/
def isPySpace (c : Char) : Bool :=
  (c == ' ') || (c == '\t') || (c == '\n') || (c == '\r') || (c == '\x0b') ||
    (c == '\x0c')

/-- Digit run of a Python integer literal, with single underscores allowed
between digits. -/
def parseIntDigitsGo (acc : Nat) : List Char → Option Nat
  | [] => some acc
  | '_' :: c :: cs =>
    if c.isDigit then parseIntDigitsGo (acc * 10 + (c.toNat - 48)) cs else none
  | ['_'] => none
  | c :: cs =>
    if c.isDigit then parseIntDigitsGo (acc * 10 + (c.toNat - 48)) cs else none

/-- Nonempty digit run starting a Python integer literal. -/
def parseIntDigits : List Char → Option Nat
  | [] => none
  | c :: cs => if c.isDigit then parseIntDigitsGo (c.toNat - 48) cs else none

/-- Python `int(s)` on ASCII input: optional surrounding whitespace,
optional sign, digits (underscore separators allowed); `none` models the
ValueError. -/
def pyInt (s : String) : Option Int :=
  let t := ((s.data.dropWhile isPySpace).reverse.dropWhile isPySpace).reverse
  match t with
  | '-' :: rest => (parseIntDigits rest).map (fun n => -(n : Int))
  | '+' :: rest => (parseIntDigits rest).map (fun n => (n : Int))
  | rest => (parseIntDigits rest).map (fun n => (n : Int))

/-- The inner `version_key`: dot-separated integer tuple, non-numeric
segments as 0. -/
def version_key (version_num : String) : List Int :=
  (splitOnChar '.' version_num).map (fun part => (pyInt part).getD 0)

/-- Python list comparison `<` on integer lists (lexicographic). -/
def listIntLt (a b : List Int) : Bool := decide (List.Lex (· < ·) a b)

/-- Insertion into a descending-by-key list, and the descending sort used
to model `list.sort(key=version_key, reverse=True)`.  Only the head's
key-maximality is relied on (tie order among equal keys is not). -/
def insertDescBy (key : α → List Int) (x : α) : List α → List α
  | [] => [x]
  | y :: ys =>
    if listIntLt (key y) (key x) then x :: y :: ys else y :: insertDescBy key x ys

/-- Descending sort by key. -/
def sortDescBy (key : α → List Int) (l : List α) : List α :=
  l.foldr (insertDescBy key) []

/-- STAC object types accepted by the resolver. -/
inductive STACObjectType where
  | item : STACObjectType
  | collection : STACObjectType
  | catalog : STACObjectType
deriving DecidableEq, Repr

/-- The pystac rendering of an object type inside messages. -/
def objTypeStr : STACObjectType → String
  | .item => "Item"
  | .collection => "Collection"
  | .catalog => "Catalog"

/-- Per-type path segment below a version directory. -/
def specSegment : STACObjectType → String
  | .item => "item-spec/json-schema/item.json"
  | .collection => "collection-spec/json-schema/collection.json"
  | .catalog => "catalog-spec/json-schema/catalog.json"

/-- The `schema_paths` entry for a type and version. -/
def schemaRelPath (t : STACObjectType) (v : String) : String :=
  "stac/v" ++ v ++ "/" ++ specSegment t

/-- The fallback candidates: for each locally available version directory,
the path with the version directory substituted, kept when it exists
(`(version_num, dir_name, candidate_path)`). -/
def schemaCandidates (ex : String → Bool) (versionDirs : List String)
    (t : STACObjectType) (v : String) : List (String × String × String) :=
  versionDirs.filterMap (fun name =>
    let candidate := pyReplace (schemaRelPath t v) ("stac/v" ++ v ++ "/")
      ("stac/" ++ name ++ "/")
    if ex candidate then some (strDrop 1 name, name, candidate) else none)

/-- `LocalSchemaUriMap.get_object_schema_uri`: exact version first, then
highest available version, else a schema-not-found error instructing the
operator to populate the cache. -/
def get_object_schema_uri (ex : String → Bool) (versionDirs : List String)
    (schemasDir : String) (t : STACObjectType) (v : String) :
    Except String String :=
  let schema_path := schemaRelPath t v
  if ex schema_path then .ok ("file://" ++ schemasDir ++ "/" ++ schema_path)
  else
    match sortDescBy (fun c => version_key c.1)
        (schemaCandidates ex versionDirs t v) with
    | c :: _ => .ok ("file://" ++ schemasDir ++ "/" ++ c.2.2)
    | [] =>
      .error ("No local STAC schema found for " ++ objTypeStr t ++ " v" ++ v ++
        ". Run \x27python scripts/update_stac_schemas.py\x27 to download schemas.")

/-! Key-maximality of the head of the descending sort. -/

theorem listIntLt_irrefl (l : List Int) : listIntLt l l = false := by
  simp only [listIntLt, decide_eq_false_iff_not]
  intro h
  exact asymm h h

theorem listIntLt_trans {a b c : List Int} (h1 : listIntLt a b = true)
    (h2 : listIntLt b c = true) : listIntLt a c = true := by
  simp only [listIntLt, decide_eq_true_eq] at h1 h2 ⊢
  exact IsTrans.trans _ _ _ h1 h2

theorem insertDescBy_ne_nil (key : α → List Int) (x : α) :
    ∀ l : List α, insertDescBy key x l ≠ [] := by
  intro l
  cases l with
  | nil => simp [insertDescBy]
  | cons y ys =>
    simp only [insertDescBy]
    split <;> simp

theorem sortDescBy_eq_nil (key : α → List Int) :
    ∀ l : List α, sortDescBy key l = [] → l = [] := by
  intro l
  cases l with
  | nil => intro _; rfl
  | cons x xs =>
    intro h
    exact absurd h (insertDescBy_ne_nil key x (sortDescBy key xs))

theorem insertDescBy_mem (key : α → List Int) (x : α) :
    ∀ (l : List α) (y : α), y ∈ insertDescBy key x l ↔ y = x ∨ y ∈ l := by
  intro l
  induction l with
  | nil => simp [insertDescBy]
  | cons z zs ih =>
    intro y
    simp only [insertDescBy]
    split
    · simp
    · simp only [List.mem_cons, ih y]
      tauto

theorem sortDescBy_mem (key : α → List Int) :
    ∀ (l : List α) (y : α), y ∈ sortDescBy key l ↔ y ∈ l := by
  intro l
  induction l with
  | nil => simp [sortDescBy]
  | cons x xs ih =>
    intro y
    rw [show sortDescBy key (x :: xs) =
        insertDescBy key x (sortDescBy key xs) from rfl,
      insertDescBy_mem key x (sortDescBy key xs) y, ih y, List.mem_cons]

theorem sortDescBy_head_max (key : α → List Int) :
    ∀ (l : List α) (best : α) (rest : List α),
      sortDescBy key l = best :: rest →
      ∀ y ∈ l, listIntLt (key best) (key y) = false := by
  intro l
  induction l with
  | nil => intro best rest h; simp [sortDescBy] at h
  | cons z zs ih =>
    intro best rest h y hy
    have hstep : sortDescBy key (z :: zs) =
        insertDescBy key z (sortDescBy key zs) := rfl
    cases hs : sortDescBy key zs with
    | nil =>
      have hzs : zs = [] := sortDescBy_eq_nil key zs hs
      subst hzs
      rw [hstep, hs] at h
      simp only [insertDescBy] at h
      cases h
      rcases List.mem_singleton.mp hy with rfl
      exact listIntLt_irrefl (key y)
    | cons x0 xs0 =>
      have hmax0 := ih x0 xs0 hs
      rw [hstep, hs] at h
      by_cases hlt : listIntLt (key x0) (key z) = true
      · rw [show insertDescBy key z (x0 :: xs0) = z :: x0 :: xs0 from by
          simp [insertDescBy, hlt]] at h
        cases h
        rcases List.mem_cons.mp hy with rfl | hyzs
        · exact listIntLt_irrefl (key y)
        · by_cases hc : listIntLt (key z) (key y) = true
          · have htr := listIntLt_trans hlt hc
            rw [hmax0 y hyzs] at htr
            exact absurd htr (by simp)
          · simpa using hc
      · rw [show insertDescBy key z (x0 :: xs0) =
            x0 :: insertDescBy key z xs0 from by
          simp [insertDescBy, hlt]] at h
        cases h
        rcases List.mem_cons.mp hy with rfl | hyzs
        · simpa using hlt
        · exact hmax0 y hyzs

theorem isPrefixOf_append_left (n : List Char) :
    ∀ (l1 l2 : List Char), n.isPrefixOf l1 = true →
      n.isPrefixOf (l1 ++ l2) = true := by
  induction n with
  | nil => intro l1 l2 _; simp
  | cons c cs ih =>
    intro l1 l2 h
    cases l1 with
    | nil => simp [List.isPrefixOf] at h
    | cons b bs =>
      simp only [List.isPrefixOf, Bool.and_eq_true] at h ⊢
      exact ⟨h.1, ih bs l2 h.2⟩

theorem isInfixChars_of_prefix (needle s : List Char)
    (h : needle.isPrefixOf s = true) : isInfixChars needle s = true := by
  cases s with
  | nil =>
    cases needle with
    | nil => rfl
    | cons c cs => simp [List.isPrefixOf] at h
  | cons c cs => simp [isInfixChars, h]

theorem isInfixChars_append_right (needle : List Char) :
    ∀ (l post : List Char), isInfixChars needle post = true →
      isInfixChars needle (l ++ post) = true := by
  intro l
  induction l with
  | nil => intro post h; simpa using h
  | cons c cs ih =>
    intro post h
    simp only [List.cons_append, isInfixChars, Bool.or_eq_true]
    exact Or.inr (ih post h)

/-! ## Claim C5 -/

/-- C5: resolving (object-type, requested-version) returns the
exact-version file when it exists; otherwise it scans the locally available
versions with an existing candidate file for that object type, orders them
as dot-separated integer tuples (non-numeric segments as 0) and selects one
with the highest available version; and when no version at all is
available it fails with a schema-not-found error whose message names the
update script that populates the local cache. -/
theorem C5_schema_version_resolution :
    ∀ (ex : String → Bool) (versionDirs : List String) (schemasDir : String)
      (t : STACObjectType) (v : String),
      (ex (schemaRelPath t v) = true →
        get_object_schema_uri ex versionDirs schemasDir t v =
          .ok ("file://" ++ schemasDir ++ "/" ++ schemaRelPath t v)) ∧
      (ex (schemaRelPath t v) = false →
        ∀ (best : String × String × String)
          (rest : List (String × String × String)),
          sortDescBy (fun c => version_key c.1)
            (schemaCandidates ex versionDirs t v) = best :: rest →
          get_object_schema_uri ex versionDirs schemasDir t v =
            .ok ("file://" ++ schemasDir ++ "/" ++ best.2.2) ∧
          best ∈ schemaCandidates ex versionDirs t v ∧
          ∀ other ∈ schemaCandidates ex versionDirs t v,
            listIntLt (version_key best.1) (version_key other.1) = false) ∧
      (ex (schemaRelPath t v) = false →
        schemaCandidates ex versionDirs t v = [] →
        ∃ msg, get_object_schema_uri ex versionDirs schemasDir t v =
          .error msg ∧
          strContains msg "No local STAC schema found" = true ∧
          strContains msg "update_stac_schemas.py" = true) := by
  intro ex versionDirs schemasDir t v
  refine ⟨fun hex => ?_, fun hex best rest hsort => ?_, fun hex hcand => ?_⟩
  · simp only [get_object_schema_uri, hex, if_true]
  · refine ⟨?_, ?_, ?_⟩
    · simp only [get_object_schema_uri, hex, Bool.false_eq_true, if_false]
      rw [hsort]
    · exact (sortDescBy_mem (fun c => version_key c.1)
        (schemaCandidates ex versionDirs t v) best).mp
        (hsort ▸ List.mem_cons_self best rest)
    · exact sortDescBy_head_max (fun c => version_key c.1)
        (schemaCandidates ex versionDirs t v) best rest hsort
  · refine ⟨"No local STAC schema found for " ++ objTypeStr t ++ " v" ++ v ++
      ". Run \x27python scripts/update_stac_schemas.py\x27 to download schemas.",
      ?_, ?_, ?_⟩
    · simp only [get_object_schema_uri, hex, Bool.false_eq_true, if_false,
        hcand]
      rfl
    · unfold strContains
      have hd : ("No local STAC schema found for " ++ objTypeStr t ++ " v" ++
          v ++ ". Run \x27python scripts/update_stac_schemas.py\x27 to download schemas.").data =
          ("No local STAC schema found for ").data ++
            ((objTypeStr t).data ++ (" v".data ++ (v.data ++
              (". Run \x27python scripts/update_stac_schemas.py\x27 to download schemas.").data))) := by
        simp [String.data_append]
      rw [hd]
      refine isInfixChars_of_prefix _ _ (isPrefixOf_append_left _ _ _ ?_)
      decide
    · unfold strContains
      have hd : ("No local STAC schema found for " ++ objTypeStr t ++ " v" ++
          v ++ ". Run \x27python scripts/update_stac_schemas.py\x27 to download schemas.").data =
          ("No local STAC schema found for ").data ++
            ((objTypeStr t).data ++ (" v".data ++ (v.data ++
              (". Run \x27python scripts/update_stac_schemas.py\x27 to download schemas.").data))) := by
        simp [String.data_append]
      rw [hd]
      refine isInfixChars_append_right _ _ _ (isInfixChars_append_right _ _ _
        (isInfixChars_append_right _ _ _ (isInfixChars_append_right _ _ _ ?_)))
      decide

/-- Witness for C5: an exact hit, a highest-version fallback, and the
not-found error, each at a concrete filesystem. -/
theorem C5_schema_version_resolution_witness :
    get_object_schema_uri
      (fun p => p == "stac/v1.0.0/item-spec/json-schema/item.json") []
      "/schemas" .item "1.0.0" =
      .ok ("file://" ++ "/schemas" ++ "/" ++ schemaRelPath .item "1.0.0") ∧
    (get_object_schema_uri
      (fun p => (p == "stac/v0.9.0/item-spec/json-schema/item.json") ||
        (p == "stac/v1.1.0/item-spec/json-schema/item.json"))
      ["v0.9.0", "v1.1.0"] "/schemas" .item "2.0.0" =
      .ok ("file://" ++ "/schemas" ++ "/" ++
        ("1.1.0", "v1.1.0",
          "stac/v1.1.0/item-spec/json-schema/item.json").2.2) ∧
      ("1.1.0", "v1.1.0", "stac/v1.1.0/item-spec/json-schema/item.json") ∈
        schemaCandidates
          (fun p => (p == "stac/v0.9.0/item-spec/json-schema/item.json") ||
            (p == "stac/v1.1.0/item-spec/json-schema/item.json"))
          ["v0.9.0", "v1.1.0"] .item "2.0.0" ∧
      ∀ other ∈ schemaCandidates
          (fun p => (p == "stac/v0.9.0/item-spec/json-schema/item.json") ||
            (p == "stac/v1.1.0/item-spec/json-schema/item.json"))
          ["v0.9.0", "v1.1.0"] .item "2.0.0",
        listIntLt (version_key ("1.1.0", "v1.1.0",
          "stac/v1.1.0/item-spec/json-schema/item.json").1)
          (version_key other.1) = false) ∧
    (∃ msg, get_object_schema_uri (fun _ => false) [] "/schemas" .catalog
        "1.0.0" = .error msg ∧
      strContains msg "No local STAC schema found" = true ∧
      strContains msg "update_stac_schemas.py" = true) :=
  ⟨(C5_schema_version_resolution
      (fun p => p == "stac/v1.0.0/item-spec/json-schema/item.json") []
      "/schemas" .item "1.0.0").1 (by decide),
   (C5_schema_version_resolution
      (fun p => (p == "stac/v0.9.0/item-spec/json-schema/item.json") ||
        (p == "stac/v1.1.0/item-spec/json-schema/item.json"))
      ["v0.9.0", "v1.1.0"] "/schemas" .item "2.0.0").2.1 (by decide)
      ("1.1.0", "v1.1.0", "stac/v1.1.0/item-spec/json-schema/item.json")
      [("0.9.0", "v0.9.0", "stac/v0.9.0/item-spec/json-schema/item.json")]
      (by decide),
   (C5_schema_version_resolution (fun _ => false) [] "/schemas" .catalog
      "1.0.0").2.2 rfl rfl⟩

/-! ## Canonical JSON serialization (json.dumps with sort_keys=True and
separators (",", ":"), ensure_ascii escaping) -/

/-- Low hex digit of `n % 16`, lowercase. -/
def hexDigit (n : Nat) : Char :=
  List.getD ("0123456789abcdef").data (n % 16) '0'

/-- Four lowercase hex digits of a code unit below 65536. -/
def u4hex (n : Nat) : List Char :=
  [hexDigit (n / 4096), hexDigit (n / 256), hexDigit (n / 16), hexDigit n]

/-- Python json.dumps character escaping with ensure_ascii=True: the two
mandatory escapes, the five short escapes, other control characters and all
non-ASCII as lowercase \uXXXX (surrogate pairs above U+FFFF). -/
def escChar (c : Char) : List Char :=
  let n := c.toNat
  if c = '\"' then ['\\', '\"']
  else if c = '\\' then ['\\', '\\']
  else if c = '\x08' then ['\\', 'b']
  else if c = '\x0c' then ['\\', 'f']
  else if c = '\n' then ['\\', 'n']
  else if c = '\r' then ['\\', 'r']
  else if c = '\t' then ['\\', 't']
  else if n < 32 then '\\' :: 'u' :: u4hex n
  else if n < 127 then [c]
  else if n < 65536 then '\\' :: 'u' :: u4hex n
  else
    ('\\' :: 'u' :: u4hex (55296 + (n - 65536) / 1024)) ++
      ('\\' :: 'u' :: u4hex (56320 + (n - 65536) % 1024))

/-- A JSON string literal: quotes around the escaped characters. -/
def escStr (s : String) : List Char :=
  '\"' :: s.data.flatMap escChar ++ ['\"']

/-- Code-point lexicographic comparison of strings (Python str <). -/
def charsLt : List Char → List Char → Bool
  | [], [] => false
  | [], _ :: _ => true
  | _ :: _, [] => false
  | a :: as, b :: bs =>
    if a.toNat < b.toNat then true
    else if b.toNat < a.toNat then false
    else charsLt as bs

/-- Insert a key-value pair into a key-sorted pair list (ascending). -/
def insertKv (p : String × Json) : List (String × Json) → List (String × Json)
  | [] => [p]
  | q :: qs => if charsLt q.1.data p.1.data then q :: insertKv p qs else p :: q :: qs

/-- Sort object entries by key (json.dumps sort_keys=True). -/
def sortKvs (l : List (String × Json)) : List (String × Json) :=
  l.foldr insertKv []

/-- Join serialized elements with the "," item separator. -/
def joinComma : List (List Char) → List Char
  | [] => []
  | [x] => x
  | x :: y :: rest => x ++ ',' :: joinComma (y :: rest)

/-- json.dumps(-, sort_keys=True, separators=(",", ":")) on the embedded
JSON values, recursion bounded by fuel (jsize of the value suffices). -/
def dumpsF : Nat → Json → List Char
  | 0, _ => []
  | _ + 1, .null => "null".data
  | _ + 1, .bool true => "true".data
  | _ + 1, .bool false => "false".data
  | _ + 1, .num n => (toString n).data
  | _ + 1, .str s => escStr s
  | fuel + 1, .arr xs => '[' :: joinComma (xs.toList.map (dumpsF fuel)) ++ [']']
  | fuel + 1, .obj o =>
    '\x7b' :: joinComma ((sortKvs o.toPairs).map
      (fun kv => escStr kv.1 ++ ':' :: dumpsF fuel kv.2)) ++ ['\x7d']

/-- Canonical serialization of a JSON value, with adequate fuel. -/
def dumpsJson (j : Json) : List Char := dumpsF (jsize j) j

/-- UTF-8 encoding of one code point. -/
def utf8Char (c : Char) : List Nat :=
  let n := c.toNat
  if n < 128 then [n]
  else if n < 2048 then [192 + n / 64, 128 + n % 64]
  else if n < 65536 then [224 + n / 4096, 128 + n / 64 % 64, 128 + n % 64]
  else [240 + n / 262144, 128 + n / 4096 % 64, 128 + n / 64 % 64, 128 + n % 64]

/-- str.encode("utf-8") as a byte list. -/
def utf8Bytes (s : List Char) : List Nat := s.flatMap utf8Char

/-! ## SHA-256 (FIPS 180-4), on bytes as Nat below 256 and words as Nat
below 2^32, all modular arithmetic written with explicit % 4294967296 -/

/-- The eight working variables / hash state words. -/
structure Sha8 where
  s0 : Nat
  s1 : Nat
  s2 : Nat
  s3 : Nat
  s4 : Nat
  s5 : Nat
  s6 : Nat
  s7 : Nat

/-- Initial SHA-256 hash state H(0). -/
def sha256init : Sha8 :=
  ⟨1779033703, 3144134277, 1013904242, 2773480762,
   1359893119, 2600822924, 528734635, 1541459225⟩

/-- The 64 SHA-256 round constants K. -/
def K64 : List Nat :=
  [1116352408, 1899447441, 3049323471, 3921009573, 961987163, 1508970993, 2453635748, 2870763221,
   3624381080, 310598401, 607225278, 1426881987, 1925078388, 2162078206, 2614888103, 3248222580,
   3835390401, 4022224774, 264347078, 604807628, 770255983, 1249150122, 1555081692, 1996064986,
   2554220882, 2821834349, 2952996808, 3210313671, 3336571891, 3584528711, 113926993, 338241895,
   666307205, 773529912, 1294757372, 1396182291, 1695183700, 1986661051, 2177026350, 2456956037,
   2730485921, 2820302411, 3259730800, 3345764771, 3516065817, 3600352804, 4094571909, 275423344,
   430227734, 506948616, 659060556, 883997877, 958139571, 1322822218, 1537002063, 1747873779,
   1955562222, 2024104815, 2227730452, 2361852424, 2428436474, 2756734187, 3204031479, 3329325298]

/-- 32-bit right rotation. -/
def rotr32 (n x : Nat) : Nat :=
  Nat.lor (Nat.shiftRight x n) (Nat.shiftLeft x (32 - n)) % 4294967296

/-- Big sigma-0. -/
def bsig0 (x : Nat) : Nat := Nat.xor (Nat.xor (rotr32 2 x) (rotr32 13 x)) (rotr32 22 x)

/-- Big sigma-1. -/
def bsig1 (x : Nat) : Nat := Nat.xor (Nat.xor (rotr32 6 x) (rotr32 11 x)) (rotr32 25 x)

/-- Small sigma-0. -/
def ssig0 (x : Nat) : Nat := Nat.xor (Nat.xor (rotr32 7 x) (rotr32 18 x)) (Nat.shiftRight x 3)

/-- Small sigma-1. -/
def ssig1 (x : Nat) : Nat := Nat.xor (Nat.xor (rotr32 17 x) (rotr32 19 x)) (Nat.shiftRight x 10)

/-- Choice function Ch(x, y, z). -/
def chFun (x y z : Nat) : Nat :=
  Nat.xor (Nat.land x y) (Nat.land (Nat.xor x 4294967295) z)

/-- Majority function Maj(x, y, z). -/
def majFun (x y z : Nat) : Nat :=
  Nat.xor (Nat.xor (Nat.land x y) (Nat.land x z)) (Nat.land y z)

/-- Message-schedule extension: append one word per fuel step
(run with fuel 48 on a 16-word block to reach the 64-word schedule). -/
def extendWGo : Nat → List Nat → List Nat
  | 0, w => w
  | f + 1, w =>
    extendWGo f (w ++
      [(ssig1 (w.getD (w.length - 2) 0) + w.getD (w.length - 7) 0 +
        ssig0 (w.getD (w.length - 15) 0) + w.getD (w.length - 16) 0) % 4294967296])

/-- One compression round on the working variables, taking (K_t, W_t). -/
def sha256round (st : Sha8) (kw : Nat × Nat) : Sha8 :=
  let t1 := (st.s7 + bsig1 st.s4 + chFun st.s4 st.s5 st.s6 + kw.1 + kw.2) % 4294967296
  let t2 := (bsig0 st.s0 + majFun st.s0 st.s1 st.s2) % 4294967296
  ⟨(t1 + t2) % 4294967296, st.s0, st.s1, st.s2,
   (st.s3 + t1) % 4294967296, st.s4, st.s5, st.s6⟩

/-- Process one 16-word block: extend the schedule, run 64 rounds, add. -/
def sha256block (st : Sha8) (block : List Nat) : Sha8 :=
  let w := extendWGo 48 block
  let r := (K64.zip w).foldl sha256round st
  ⟨(st.s0 + r.s0) % 4294967296, (st.s1 + r.s1) % 4294967296,
   (st.s2 + r.s2) % 4294967296, (st.s3 + r.s3) % 4294967296,
   (st.s4 + r.s4) % 4294967296, (st.s5 + r.s5) % 4294967296,
   (st.s6 + r.s6) % 4294967296, (st.s7 + r.s7) % 4294967296⟩

/-- SHA-256 message padding: 0x80, zeros to 56 mod 64, 8-byte big-endian
bit length. -/
def sha256pad (bs : List Nat) : List Nat :=
  let n := bs.length
  let k := (64 + 56 - ((n + 1) % 64)) % 64
  let b := 8 * n
  bs ++ 128 :: List.replicate k 0 ++
    [b / 72057594037927936 % 256, b / 281474976710656 % 256,
     b / 1099511627776 % 256, b / 4294967296 % 256,
     b / 16777216 % 256, b / 65536 % 256, b / 256 % 256, b % 256]

/-- Big-endian bytes-to-words packing (fueled). -/
def toWordsGo : Nat → List Nat → List Nat
  | 0, _ => []
  | _, [] => []
  | f + 1, b0 :: b1 :: b2 :: b3 :: rest =>
    (16777216 * b0 + 65536 * b1 + 256 * b2 + b3) :: toWordsGo f rest
  | _ + 1, _ => []

/-- Split a padded byte stream into 16-word blocks (fueled). -/
def blocksGo : Nat → List Nat → List (List Nat)
  | 0, _ => []
  | _, [] => []
  | f + 1, bs => toWordsGo 16 (bs.take 64) :: blocksGo f (bs.drop 64)

/-- Eight lowercase hex digits of a 32-bit word, most significant first. -/
def hexWord (w : Nat) : List Char :=
  [hexDigit (w / 268435456), hexDigit (w / 16777216), hexDigit (w / 1048576),
   hexDigit (w / 65536), hexDigit (w / 4096), hexDigit (w / 256),
   hexDigit (w / 16), hexDigit w]

/-- hashlib.sha256(bytes).hexdigest(): 64 lowercase hex characters. -/
def sha256hexChars (bs : List Nat) : List Char :=
  let padded := sha256pad bs
  let st := (blocksGo (padded.length + 1) padded).foldl sha256block sha256init
  [st.s0, st.s1, st.s2, st.s3, st.s4, st.s5, st.s6, st.s7].flatMap hexWord

/-- FIPS 180-4 test vector: SHA-256 of "abc". -/
theorem sha256_abc :
    sha256hexChars (utf8Bytes "abc".data) =
      ("ba7816bf8f01cfea414140de5dae2223b00361a396177a9cb410ff61f20015ad").data := by
  decide

/-! ## geojson_processor.generate_deterministic_id -/

/-- base_id = feature.get("id", "feature"); str(int/float) (bool is an int
in Python, rendered True/False); any other non-string becomes "feature".
Numbers are embedded as integers throughout this development. -/
def pyBaseId (feature : JsonO) : String :=
  match jLookup feature "id" with
  | none => "feature"
  | some (.str s) => s
  | some (.num n) => toString n
  | some (.bool b) => if b then "True" else "False"
  | some _ => "feature"

/-- .replace(" ", "-").replace("_", "-").lower() on the base id. -/
def pyNormalizeId (s : String) : String :=
  pyLower (replaceChar '_' '-' (replaceChar ' ' '-' s))

/-- The hash_components dict: collection, source, geometry and properties
(dict defaults when the keys are absent), plus feature_id appended when
feature.get("id") is truthy (if feature.get("id"): present AND truthy). -/
def hashComponents (feature : JsonO) (cid skey : String) : Json :=
  Json.objOf
    (match jLookup feature "id" with
     | some idv =>
       if jsonTruthy idv then
         [("collection", Json.str cid), ("source", Json.str skey),
          ("geometry", (jLookup feature "geometry").getD (Json.objOf [])),
          ("properties", (jLookup feature "properties").getD (Json.objOf [])),
          ("feature_id", idv)]
       else
         [("collection", Json.str cid), ("source", Json.str skey),
          ("geometry", (jLookup feature "geometry").getD (Json.objOf [])),
          ("properties", (jLookup feature "properties").getD (Json.objOf []))]
     | none =>
       [("collection", Json.str cid), ("source", Json.str skey),
        ("geometry", (jLookup feature "geometry").getD (Json.objOf [])),
        ("properties", (jLookup feature "properties").getD (Json.objOf []))])

/-- hashlib.sha256(dumps(j).encode("utf-8")).hexdigest()[:12]. -/
def hashSuffix12 (j : Json) : String :=
  String.mk ((sha256hexChars (utf8Bytes (dumpsJson j))).take 12)

/-- generate_deterministic_id from geojson_processor.py lines 69-103. -/
def generate_deterministic_id (feature : JsonO) (cid skey : String) : String :=
  cid ++ "-" ++ pyNormalizeId (pyBaseId feature) ++ "-" ++
    hashSuffix12 (hashComponents feature cid skey)

/-- Claim-side id following the original claim wording: feature_id is part
of the hashed components whenever the feature has an id key at all
("if present"), truthy or not. -/
def C2_claimedId (feature : JsonO) (cid skey : String) : String :=
  cid ++ "-" ++ pyNormalizeId (pyBaseId feature) ++ "-" ++
    hashSuffix12 (Json.objOf
      (match jLookup feature "id" with
       | some idv =>
         [("collection", Json.str cid), ("source", Json.str skey),
          ("geometry", (jLookup feature "geometry").getD (Json.objOf [])),
          ("properties", (jLookup feature "properties").getD (Json.objOf [])),
          ("feature_id", idv)]
       | none =>
         [("collection", Json.str cid), ("source", Json.str skey),
          ("geometry", (jLookup feature "geometry").getD (Json.objOf [])),
          ("properties", (jLookup feature "properties").getD (Json.objOf []))]))

/-- Components of the amended claim, already written in key-sorted order
(the canonical encoding is key-sorted): collection, feature_id when the
feature's id is present and truthy, geometry, properties, source. -/
def claimAmendedComponents (feature : JsonO) (cid skey : String) : Json :=
  Json.objOf
    (match jLookup feature "id" with
     | some idv =>
       if jsonTruthy idv then
         [("collection", Json.str cid), ("feature_id", idv),
          ("geometry", (jLookup feature "geometry").getD (Json.objOf [])),
          ("properties", (jLookup feature "properties").getD (Json.objOf [])),
          ("source", Json.str skey)]
       else
         [("collection", Json.str cid),
          ("geometry", (jLookup feature "geometry").getD (Json.objOf [])),
          ("properties", (jLookup feature "properties").getD (Json.objOf [])),
          ("source", Json.str skey)]
     | none =>
       [("collection", Json.str cid),
        ("geometry", (jLookup feature "geometry").getD (Json.objOf [])),
        ("properties", (jLookup feature "properties").getD (Json.objOf [])),
        ("source", Json.str skey)])

/-- Claim-side id per the amended wording: canonical key-sorted encoding of
the components with feature_id included exactly when the id is truthy. -/
def C2_claimedId_amended (feature : JsonO) (cid skey : String) : String :=
  cid ++ "-" ++ pyNormalizeId (pyBaseId feature) ++ "-" ++
    hashSuffix12 (claimAmendedComponents feature cid skey)

set_option maxRecDepth 100000 in
/-- C2: counterexample. A feature whose id key is present but empty
("" is falsy) makes the code omit feature_id from the hashed components,
while the claim ("if present") includes it: on feature with id "",
collection "c" and source "s" the code returns c--3a8b5031578b (matching
CPython's hashlib/json on the same input) but the claimed id is
c--eafbea8cda65, so the two differ. -/
theorem C2_deterministic_id_counterexample :
    generate_deterministic_id (JsonO.ofPairs [("id", Json.str "")]) "c" "s" =
      "c--3a8b5031578b" ∧
    C2_claimedId (JsonO.ofPairs [("id", Json.str "")]) "c" "s" =
      "c--eafbea8cda65" ∧
    generate_deterministic_id (JsonO.ofPairs [("id", Json.str "")]) "c" "s" ≠
      C2_claimedId (JsonO.ofPairs [("id", Json.str "")]) "c" "s" := by
  refine ⟨by decide, by decide, by decide⟩

theorem sortKvs_src4 (cv sv g p : Json) :
    sortKvs [("collection", cv), ("source", sv), ("geometry", g),
        ("properties", p)] =
      [("collection", cv), ("geometry", g), ("properties", p),
        ("source", sv)] := rfl

theorem sortKvs_claim4 (cv g p sv : Json) :
    sortKvs [("collection", cv), ("geometry", g), ("properties", p),
        ("source", sv)] =
      [("collection", cv), ("geometry", g), ("properties", p),
        ("source", sv)] := rfl

theorem sortKvs_src5 (cv sv g p idv : Json) :
    sortKvs [("collection", cv), ("source", sv), ("geometry", g),
        ("properties", p), ("feature_id", idv)] =
      [("collection", cv), ("feature_id", idv), ("geometry", g),
        ("properties", p), ("source", sv)] := rfl

theorem sortKvs_claim5 (cv idv g p sv : Json) :
    sortKvs [("collection", cv), ("feature_id", idv), ("geometry", g),
        ("properties", p), ("source", sv)] =
      [("collection", cv), ("feature_id", idv), ("geometry", g),
        ("properties", p), ("source", sv)] := rfl

theorem jsize_objOf_four (cv sv g p : Json) :
    jsize (Json.objOf [("collection", cv), ("source", sv), ("geometry", g),
        ("properties", p)]) =
      jsize (Json.objOf [("collection", cv), ("geometry", g),
        ("properties", p), ("source", sv)]) := by
  simp [Json.objOf, JsonO.ofPairs, jsize, jsizeO]
  omega

theorem jsize_objOf_five (cv sv g p idv : Json) :
    jsize (Json.objOf [("collection", cv), ("source", sv), ("geometry", g),
        ("properties", p), ("feature_id", idv)]) =
      jsize (Json.objOf [("collection", cv), ("feature_id", idv),
        ("geometry", g), ("properties", p), ("source", sv)]) := by
  simp [Json.objOf, JsonO.ofPairs, jsize, jsizeO]
  omega

/-- The canonical serialization does not depend on the insertion order of
the four fixed-key components (sort_keys orders them). -/
theorem dumps_four (cv sv g p : Json) :
    dumpsJson (Json.objOf [("collection", cv), ("source", sv),
        ("geometry", g), ("properties", p)]) =
      dumpsJson (Json.objOf [("collection", cv), ("geometry", g),
        ("properties", p), ("source", sv)]) := by
  unfold dumpsJson
  rw [jsize_objOf_four]
  obtain ⟨m, hm⟩ : ∃ m, jsize (Json.objOf [("collection", cv),
      ("geometry", g), ("properties", p), ("source", sv)]) = m + 1 :=
    ⟨jsize (Json.objOf [("collection", cv), ("geometry", g),
      ("properties", p), ("source", sv)]) - 1, by
      have := jsize_pos (Json.objOf [("collection", cv), ("geometry", g),
        ("properties", p), ("source", sv)])
      omega⟩
  rw [hm]
  show dumpsF (m + 1) (Json.obj (JsonO.ofPairs [("collection", cv),
      ("source", sv), ("geometry", g), ("properties", p)])) =
    dumpsF (m + 1) (Json.obj (JsonO.ofPairs [("collection", cv),
      ("geometry", g), ("properties", p), ("source", sv)]))
  simp only [dumpsF, JsonO.toPairs_ofPairs, sortKvs_src4, sortKvs_claim4]

/-- Same for the five components including feature_id. -/
theorem dumps_five (cv sv g p idv : Json) :
    dumpsJson (Json.objOf [("collection", cv), ("source", sv),
        ("geometry", g), ("properties", p), ("feature_id", idv)]) =
      dumpsJson (Json.objOf [("collection", cv), ("feature_id", idv),
        ("geometry", g), ("properties", p), ("source", sv)]) := by
  unfold dumpsJson
  rw [jsize_objOf_five]
  obtain ⟨m, hm⟩ : ∃ m, jsize (Json.objOf [("collection", cv),
      ("feature_id", idv), ("geometry", g), ("properties", p),
      ("source", sv)]) = m + 1 :=
    ⟨jsize (Json.objOf [("collection", cv), ("feature_id", idv),
      ("geometry", g), ("properties", p), ("source", sv)]) - 1, by
      have := jsize_pos (Json.objOf [("collection", cv),
        ("feature_id", idv), ("geometry", g), ("properties", p),
        ("source", sv)])
      omega⟩
  rw [hm]
  show dumpsF (m + 1) (Json.obj (JsonO.ofPairs [("collection", cv),
      ("source", sv), ("geometry", g), ("properties", p),
      ("feature_id", idv)])) =
    dumpsF (m + 1) (Json.obj (JsonO.ofPairs [("collection", cv),
      ("feature_id", idv), ("geometry", g), ("properties", p),
      ("source", sv)]))
  simp only [dumpsF, JsonO.toPairs_ofPairs, sortKvs_src5, sortKvs_claim5]

theorem hashComponents_none (feature : JsonO) (cid skey : String)
    (h : jLookup feature "id" = none) :
    hashComponents feature cid skey =
      Json.objOf [("collection", Json.str cid), ("source", Json.str skey),
        ("geometry", (jLookup feature "geometry").getD (Json.objOf [])),
        ("properties", (jLookup feature "properties").getD (Json.objOf []))] := by
  unfold hashComponents
  rw [h]

theorem hashComponents_some_false (feature : JsonO) (cid skey : String)
    (idv : Json) (h : jLookup feature "id" = some idv)
    (ht : jsonTruthy idv = false) :
    hashComponents feature cid skey =
      Json.objOf [("collection", Json.str cid), ("source", Json.str skey),
        ("geometry", (jLookup feature "geometry").getD (Json.objOf [])),
        ("properties", (jLookup feature "properties").getD (Json.objOf []))] := by
  unfold hashComponents
  rw [h]
  simp [ht]

theorem hashComponents_some_true (feature : JsonO) (cid skey : String)
    (idv : Json) (h : jLookup feature "id" = some idv)
    (ht : jsonTruthy idv = true) :
    hashComponents feature cid skey =
      Json.objOf [("collection", Json.str cid), ("source", Json.str skey),
        ("geometry", (jLookup feature "geometry").getD (Json.objOf [])),
        ("properties", (jLookup feature "properties").getD (Json.objOf [])),
        ("feature_id", idv)] := by
  unfold hashComponents
  rw [h]
  simp [ht]

theorem claimAmendedComponents_none (feature : JsonO) (cid skey : String)
    (h : jLookup feature "id" = none) :
    claimAmendedComponents feature cid skey =
      Json.objOf [("collection", Json.str cid),
        ("geometry", (jLookup feature "geometry").getD (Json.objOf [])),
        ("properties", (jLookup feature "properties").getD (Json.objOf [])),
        ("source", Json.str skey)] := by
  unfold claimAmendedComponents
  rw [h]

theorem claimAmendedComponents_some_false (feature : JsonO)
    (cid skey : String) (idv : Json) (h : jLookup feature "id" = some idv)
    (ht : jsonTruthy idv = false) :
    claimAmendedComponents feature cid skey =
      Json.objOf [("collection", Json.str cid),
        ("geometry", (jLookup feature "geometry").getD (Json.objOf [])),
        ("properties", (jLookup feature "properties").getD (Json.objOf [])),
        ("source", Json.str skey)] := by
  unfold claimAmendedComponents
  rw [h]
  simp [ht]

theorem claimAmendedComponents_some_true (feature : JsonO)
    (cid skey : String) (idv : Json) (h : jLookup feature "id" = some idv)
    (ht : jsonTruthy idv = true) :
    claimAmendedComponents feature cid skey =
      Json.objOf [("collection", Json.str cid), ("feature_id", idv),
        ("geometry", (jLookup feature "geometry").getD (Json.objOf [])),
        ("properties", (jLookup feature "properties").getD (Json.objOf [])),
        ("source", Json.str skey)] := by
  unfold claimAmendedComponents
  rw [h]
  simp [ht]

/-- The code's hash input and the amended claim's canonical key-sorted hash
input serialize identically in every case of the id condition. -/
theorem componentsDumps_eq (feature : JsonO) (cid skey : String) :
    dumpsJson (hashComponents feature cid skey) =
      dumpsJson (claimAmendedComponents feature cid skey) := by
  cases hid : jLookup feature "id" with
  | none =>
    rw [hashComponents_none feature cid skey hid,
      claimAmendedComponents_none feature cid skey hid]
    exact dumps_four _ _ _ _
  | some idv =>
    cases ht : jsonTruthy idv with
    | false =>
      rw [hashComponents_some_false feature cid skey idv hid ht,
        claimAmendedComponents_some_false feature cid skey idv hid ht]
      exact dumps_four _ _ _ _
    | true =>
      rw [hashComponents_some_true feature cid skey idv hid ht,
        claimAmendedComponents_some_true feature cid skey idv hid ht]
      exact dumps_five _ _ _ _ _

theorem hexDigit_mem (n : Nat) : hexDigit n ∈ ("0123456789abcdef").data := by
  unfold hexDigit
  generalize hm : n % 16 = m
  have h : m < 16 := hm ▸ Nat.mod_lt n (by norm_num)
  interval_cases m <;> decide

theorem hexWord_mem (w : Nat) (ch : Char) (h : ch ∈ hexWord w) :
    ch ∈ ("0123456789abcdef").data := by
  simp only [hexWord, List.mem_cons, List.not_mem_nil, or_false] at h
  rcases h with rfl | rfl | rfl | rfl | rfl | rfl | rfl | rfl <;>
    exact hexDigit_mem _

theorem sha256hex_length (bs : List Nat) : (sha256hexChars bs).length = 64 :=
  rfl

theorem sha256hex_mem (bs : List Nat) (ch : Char)
    (h : ch ∈ sha256hexChars bs) : ch ∈ ("0123456789abcdef").data := by
  simp only [sha256hexChars, List.mem_flatMap] at h
  obtain ⟨w, _, hw⟩ := h
  exact hexWord_mem w ch hw

/-- C2 (amended): generate_deterministic_id equals the claim-side id whose
hashed dict includes feature_id exactly when the feature's id is present
AND truthy (the code's if feature.get("id") condition), and the result
always has the shape collectionId-normalizedBaseId-hx where hx is the
12-character prefix of the SHA-256 hex digest of the canonical key-sorted
JSON encoding: 12 characters long, all lowercase hexadecimal. -/
theorem C2_deterministic_id_amended :
    ∀ (feature : JsonO) (cid skey : String),
      generate_deterministic_id feature cid skey =
        C2_claimedId_amended feature cid skey ∧
      ∃ hx : List Char,
        generate_deterministic_id feature cid skey =
          cid ++ "-" ++ pyNormalizeId (pyBaseId feature) ++ "-" ++
            String.mk hx ∧
        hx.length = 12 ∧
        hx.all (fun ch => decide (ch ∈ ("0123456789abcdef").data)) = true := by
  intro feature cid skey
  constructor
  · unfold generate_deterministic_id C2_claimedId_amended hashSuffix12
    rw [componentsDumps_eq feature cid skey]
  · refine ⟨(sha256hexChars (utf8Bytes (dumpsJson
      (hashComponents feature cid skey)))).take 12, rfl, ?_, ?_⟩
    · rw [List.length_take, sha256hex_length]
      decide
    · rw [List.all_eq_true]
      intro ch hch
      exact decide_eq_true (sha256hex_mem _ ch (List.take_subset _ _ hch))
